import Mathlib

/-!
# Fusion orchestrator of the extended Kalman filter (src/FusionEKF.cpp)

A shallow embedding of `FusionEKF::FusionEKF` and `FusionEKF::ProcessMeasurement`.

* Numbers are elements of a linearly ordered field `α`.  The narrowing of a value
  to `float` and to `double` that lines 125-150 perform at every assignment and
  product is a parameter (`Rounding`): `Rounding.exact` is arithmetic without
  rounding and `Rounding.ieee` is IEEE 754 binary32 / binary64 rounding (to
  nearest, ties to even) on the rationals.  `double` arithmetic of the first
  call and the decimal literals are exact.
* A `double` that may be NaN is an `Option` (`none` is NaN); the first-call
  branch is given a second time over such values (`FusionEKF.initialize_nan`).
* `Eigen::VectorXd` and `Eigen::MatrixXd` are dynamically sized, so they are
  lists and lists of rows.
* The filter core (`KalmanFilter::Predict`, `Update`, `UpdateEKF`), the
  linearization utility (`Tools::CalculateJacobian`) and the C library `cos`
  and `sin` are called, not defined, by this source file: they are parameters
  (`Collaborators`).  Every call made by `ProcessMeasurement` is logged with the
  filter object as it is at the moment of the call.
* Storage that the constructor allocates but never assigns (`H_laser_`, `Hj_`)
  holds indeterminate values: they are parameters of the constructor.
* An element read `v[i]` outside the vector is a failure (`none`).
-/

namespace CarND

/-- Dynamically sized vector (`Eigen::VectorXd`). -/
abbrev VectorXd (α : Type) := List α

/-- Dynamically sized matrix (`Eigen::MatrixXd`), as the list of its rows. -/
abbrev MatrixXd (α : Type) := List (List α)

/-- Contents of `MatrixXd(rows, cols)` before any assignment: the entries are
whatever the allocated storage `mem` happens to hold. -/
def MatrixXd.alloc {α : Type} (rows cols : Nat) (mem : Nat → Nat → α) : MatrixXd α :=
  (List.range rows).map fun i => (List.range cols).map fun j => mem i j

/-- Sensor tag of a measurement (`MeasurementPackage::SensorType`):
`LASER` is the linear sensor, `RADAR` the nonlinear one. -/
inductive SensorType where
  | LASER
  | RADAR
  deriving DecidableEq, Repr

/-- One sensor observation (`MeasurementPackage`). -/
structure MeasurementPackage (α : Type) where
  timestamp_ : Int
  sensor_type_ : SensorType
  raw_measurements_ : VectorXd α

/-- Data members of the filter core (`KalmanFilter`). -/
structure KalmanFilter (α : Type) where
  x_ : VectorXd α
  P_ : MatrixXd α
  F_ : MatrixXd α
  Q_ : MatrixXd α
  H_ : MatrixXd α
  R_ : MatrixXd α

/-- Narrowing of a value to the C++ types `float` and `double`, with the sign
laws that rounding obeys. -/
structure Rounding (α : Type) [LinearOrderedField α] where
  toFloat : α → α
  toDouble : α → α
  toFloat_nonneg : ∀ x, 0 ≤ x → 0 ≤ toFloat x
  toFloat_nonpos : ∀ x, x ≤ 0 → toFloat x ≤ 0
  toDouble_nonneg : ∀ x, 0 ≤ x → 0 ≤ toDouble x
  toDouble_nonpos : ∀ x, x ≤ 0 → toDouble x ≤ 0

/-- Arithmetic without rounding. -/
def Rounding.exact {α : Type} [LinearOrderedField α] : Rounding α :=
  { toFloat := fun x => x
    toDouble := fun x => x
    toFloat_nonneg := fun _ h => h
    toFloat_nonpos := fun _ h => h
    toDouble_nonneg := fun _ h => h
    toDouble_nonpos := fun _ h => h }

/-- Functions that `FusionEKF.cpp` calls and does not define, and the rounding
of the arithmetic it is compiled to. -/
structure Collaborators (α : Type) [LinearOrderedField α] where
  rounding : Rounding α
  cos : α → α
  sin : α → α
  CalculateJacobian : VectorXd α → MatrixXd α
  Predict : KalmanFilter α → KalmanFilter α
  Update : KalmanFilter α → VectorXd α → KalmanFilter α
  UpdateEKF : KalmanFilter α → VectorXd α → KalmanFilter α

/-- Which collaborator a logged call went to. -/
inductive CallKind where
  | Predict
  | CalculateJacobian
  | UpdateEKF
  | Update
  deriving DecidableEq, Repr

/-- A logged call: the filter object `ekf_` as it is when the call is made, and
for the two updates the measurement vector passed.  `CalculateJacobian` is
called with `ekf.x_`. -/
inductive Call (α : Type) where
  | Predict (ekf : KalmanFilter α)
  | CalculateJacobian (ekf : KalmanFilter α)
  | UpdateEKF (ekf : KalmanFilter α) (z : VectorXd α)
  | Update (ekf : KalmanFilter α) (z : VectorXd α)

/-- The collaborator a call went to. -/
def Call.kind {α : Type} : Call α → CallKind
  | .Predict _ => .Predict
  | .CalculateJacobian _ => .CalculateJacobian
  | .UpdateEKF _ _ => .UpdateEKF
  | .Update _ _ => .Update

/-- The filter object at the moment of the call. -/
def Call.ekf {α : Type} : Call α → KalmanFilter α
  | .Predict k => k
  | .CalculateJacobian k => k
  | .UpdateEKF k _ => k
  | .Update k _ => k

/-- Data members of the orchestrator (`FusionEKF`). -/
structure FusionEKF (α : Type) where
  ekf_ : KalmanFilter α
  is_initialized_ : Bool
  previous_timestamp_ : Int
  R_laser_ : MatrixXd α
  R_radar_ : MatrixXd α
  H_laser_ : MatrixXd α
  Hj_ : MatrixXd α

set_option linter.dupNamespace false

section Orchestrator

variable {α : Type} [LinearOrderedField α]

/-- Constructor `FusionEKF::FusionEKF()` (lines 14-44).  `ekf0` is the member
`ekf_` as its own default constructor leaves it; `memH` and `memHj` are the
contents of the storage allocated for `H_laser_` and `Hj_`, which the
constructor never assigns. -/
def FusionEKF.FusionEKF (ekf0 : KalmanFilter α) (memH memHj : Nat → Nat → α) :
    CarND.FusionEKF α :=
  { is_initialized_ := false
    previous_timestamp_ := 0
    R_laser_ := [[0.0225, 0],
                 [0, 0.0225]]
    R_radar_ := [[0.09, 0, 0],
                 [0, 0.0009, 0],
                 [0, 0, 0.09]]
    H_laser_ := MatrixXd.alloc 2 4 memH
    Hj_ := MatrixXd.alloc 3 4 memHj
    ekf_ := { ekf0 with
      P_ := [[1, 0, 1, 0],
             [0, 1, 0, 1],
             [0, 0, 1000, 0],
             [0, 0, 0, 1000]] } }

/-- State transition matrix built from the elapsed time (lines 129-133). -/
def FusionEKF.buildF (dt : α) : MatrixXd α :=
  [[1, 0, dt, 0],
   [0, 1, 0, dt],
   [0, 0, 1, 0],
   [0, 0, 0, 1]]

/-- Process noise covariance built from the elapsed time (lines 135-150).  Every
`float` variable and every `float` product is narrowed to `float`; the entries
are then stored as `double`, which is exact. -/
def FusionEKF.buildQ (r : Rounding α) (dt : α) : MatrixXd α :=
  let noise_ax : α := r.toFloat 9.0
  let noise_ay : α := r.toFloat 9.0
  let dt_2 := r.toFloat (dt * dt)
  let dt_3 := r.toFloat (dt_2 * dt)
  let dt_4 := r.toFloat (dt_3 * dt)
  let dt_4_4 := r.toFloat (dt_4 / 4)
  let dt_3_2 := r.toFloat (dt_3 / 2)
  [[r.toFloat (dt_4_4 * noise_ax), 0, r.toFloat (dt_3_2 * noise_ax), 0],
   [0, r.toFloat (dt_4_4 * noise_ay), 0, r.toFloat (dt_3_2 * noise_ay)],
   [r.toFloat (dt_3_2 * noise_ax), 0, r.toFloat (dt_2 * noise_ax), 0],
   [0, r.toFloat (dt_3_2 * noise_ay), 0, r.toFloat (dt_2 * noise_ay)]]

/-- Elapsed time in seconds between the stored reference timestamp and the
record (lines 125-126): the integer difference is converted to `float`, the
division by `1000000.0` is done in `double`, and the quotient is narrowed to
`float` again. -/
def FusionEKF.elapsed (r : Rounding α) (timestamp previous_timestamp : Int) : α :=
  let dt : α := r.toFloat ((timestamp - previous_timestamp : Int) : α)
  r.toFloat (r.toDouble (dt / 1000000.0))

/-- First-call branch of `ProcessMeasurement` (lines 57-113). -/
def FusionEKF.initialize_ (c : Collaborators α) (self : CarND.FusionEKF α)
    (measurement_pack : MeasurementPackage α) : Option (CarND.FusionEKF α × List (Call α)) := do
  let _x0 : VectorXd α := [1, 1, 1, 1]
  let x1 : VectorXd α ←
    match measurement_pack.sensor_type_ with
    | .RADAR => do
      let rho ← measurement_pack.raw_measurements_[0]?
      let phi ← measurement_pack.raw_measurements_[1]?
      let _rho_dot ← measurement_pack.raw_measurements_[2]?
      let px := rho * c.cos phi
      let py := rho * c.sin phi
      let vx : α := 0
      let vy : α := 0
      pure ((([px, py, vx, vy] : VectorXd α)))
    | .LASER => do
      let m0 ← measurement_pack.raw_measurements_[0]?
      let m1 ← measurement_pack.raw_measurements_[1]?
      pure ((([m0, m1, 0, 0] : VectorXd α)))
  let a0 : α ← x1[0]?
  let a1 : α ← x1[1]?
  let x2 : VectorXd α :=
    if |a0| < (0.0001 : α) ∧ |a1| < (0.0001 : α) then
      (x1.set 0 (0.0001 : α)).set 1 (0.0001 : α)
    else x1
  let P : MatrixXd α :=
    [[1, 0, 0, 0],
     [0, 1, 0, 0],
     [0, 0, 1000, 0],
     [0, 0, 0, 1000]]
  pure ({ self with
            ekf_ := { self.ekf_ with x_ := x2, P_ := P }
            previous_timestamp_ := measurement_pack.timestamp_
            is_initialized_ := true }, [])

/-- Later-call branch of `ProcessMeasurement` (lines 125-178). -/
def FusionEKF.track (c : Collaborators α) (self : CarND.FusionEKF α)
    (measurement_pack : MeasurementPackage α) : CarND.FusionEKF α × List (Call α) :=
  let dt : α :=
    FusionEKF.elapsed c.rounding measurement_pack.timestamp_ self.previous_timestamp_
  let self := { self with previous_timestamp_ := measurement_pack.timestamp_ }
  let ekf := { self.ekf_ with F_ := FusionEKF.buildF dt }
  let ekf := { ekf with Q_ := FusionEKF.buildQ c.rounding dt }
  let (ekf, calls) :=
    if dt ≥ (0.000001 : α) then (c.Predict ekf, [Call.Predict ekf]) else (ekf, [])
  match measurement_pack.sensor_type_ with
  | .RADAR =>
    let calls := calls ++ [Call.CalculateJacobian ekf]
    let ekf := { ekf with H_ := c.CalculateJacobian ekf.x_ }
    let ekf := { ekf with R_ := self.R_radar_ }
    let calls := calls ++ [Call.UpdateEKF ekf measurement_pack.raw_measurements_]
    ({ self with ekf_ := c.UpdateEKF ekf measurement_pack.raw_measurements_ }, calls)
  | .LASER =>
    let ekf := { ekf with H_ := self.H_laser_ }
    let ekf := { ekf with R_ := self.R_laser_ }
    let calls := calls ++ [Call.Update ekf measurement_pack.raw_measurements_]
    ({ self with ekf_ := c.Update ekf measurement_pack.raw_measurements_ }, calls)

/-- The member function `FusionEKF::ProcessMeasurement` (lines 51-180): the new
orchestrator and the calls made, in order; `none` when an element read falls
outside the raw measurement vector. -/
def FusionEKF.ProcessMeasurement (c : Collaborators α) (self : CarND.FusionEKF α)
    (measurement_pack : MeasurementPackage α) : Option (CarND.FusionEKF α × List (Call α)) :=
  if !self.is_initialized_ then
    FusionEKF.initialize_ c self measurement_pack
  else
    some (FusionEKF.track c self measurement_pack)

/-- The orchestrators that a caller can hold: the freshly constructed one and
whatever `ProcessMeasurement` returns on one of them. -/
inductive Reachable (c : Collaborators α) (ekf0 : KalmanFilter α)
    (memH memHj : Nat → Nat → α) : CarND.FusionEKF α → Prop where
  | fresh : Reachable c ekf0 memH memHj (FusionEKF.FusionEKF ekf0 memH memHj)
  | step {s s1 : CarND.FusionEKF α} {calls : List (Call α)}
      (measurement_pack : MeasurementPackage α) :
      Reachable c ekf0 memH memHj s →
      FusionEKF.ProcessMeasurement c s measurement_pack = some (s1, calls) →
      Reachable c ekf0 memH memHj s1

/-- The filter object of `s` once `F_` and `Q_` have been rebuilt for the record
`m` (lines 129-150), before any collaborator is called. -/
def rebuilt (c : Collaborators α) (s : CarND.FusionEKF α) (m : MeasurementPackage α) :
    KalmanFilter α :=
  { s.ekf_ with
    F_ := FusionEKF.buildF (FusionEKF.elapsed c.rounding m.timestamp_ s.previous_timestamp_)
    Q_ := FusionEKF.buildQ c.rounding
            (FusionEKF.elapsed c.rounding m.timestamp_ s.previous_timestamp_) }

end Orchestrator

/-! ## Filter core prediction, from the specification -/

section FilterCore

variable {α : Type} [LinearOrderedField α]

/-- Inner product of two coefficient lists. -/
def dot (u v : List α) : α :=
  (List.zipWith (fun a b => a * b) u v).sum

/-- Matrix times vector. -/
def MatrixXd.mulVec (A : MatrixXd α) (v : VectorXd α) : VectorXd α :=
  A.map fun row => dot row v

/-- Column `j` of a matrix. -/
def MatrixXd.col (A : MatrixXd α) (j : Nat) : List α :=
  A.map fun row => row.getD j 0

/-- Transpose of a matrix whose rows have the length of its first row. -/
def MatrixXd.transpose (A : MatrixXd α) : MatrixXd α :=
  (List.range (A.headD []).length).map fun j => MatrixXd.col A j

/-- Matrix product. -/
def MatrixXd.mul (A B : MatrixXd α) : MatrixXd α :=
  A.map fun row => (MatrixXd.transpose B).map fun column => dot row column

/-- Entrywise matrix sum. -/
def MatrixXd.add (A B : MatrixXd α) : MatrixXd α :=
  List.zipWith (fun r1 r2 => List.zipWith (fun a b => a + b) r1 r2) A B

/-- Modelled from the spec: `KalmanFilter::Predict` is defined in
kalman_filter.cpp, which is not among the available sources; section 4.3 of the
specification gives it as `x ← F·x`; `P ← F·P·Fᵗ + Q`. -/
def KalmanFilter.Predict (self : KalmanFilter α) : KalmanFilter α :=
  { self with
    x_ := MatrixXd.mulVec self.F_ self.x_
    P_ := MatrixXd.add
            (MatrixXd.mul (MatrixXd.mul self.F_ self.P_) (MatrixXd.transpose self.F_))
            self.Q_ }

end FilterCore

/-! ## IEEE 754 rounding on the rationals -/

/-- Round to the nearest integer, ties to even. -/
def roundNE (t : ℚ) : ℤ :=
  if t - ⌊t⌋ < 1 / 2 then ⌊t⌋
  else if 1 / 2 < t - ⌊t⌋ then ⌊t⌋ + 1
  else if ⌊t⌋ % 2 = 0 then ⌊t⌋ else ⌊t⌋ + 1

/-- Exponent of the unit in the last place of `x` in the binary format with `p`
significand bits and least normal exponent `emin` (below `2 ^ emin` the format
is subnormal and the unit stays `2 ^ (emin - (p - 1))`). -/
def ulpExp (p emin : ℤ) (x : ℚ) : ℤ :=
  max (Int.log 2 |x|) emin - (p - 1)

/-- Rounding of `x` to the binary format with `p` significand bits and least
normal exponent `emin`, to nearest, ties to even.  The exponent range is not
bounded above: a value beyond the largest finite number of the format is
rounded like any other instead of becoming infinite. -/
def roundTo (p emin : ℤ) (x : ℚ) : ℚ :=
  if x = 0 then 0 else (roundNE (x / 2 ^ ulpExp p emin x) : ℚ) * 2 ^ ulpExp p emin x

/-- Rounding to `float` (IEEE 754 binary32: 24 significand bits). -/
def binary32 : ℚ → ℚ := roundTo 24 (-126)

/-- Rounding to `double` (IEEE 754 binary64: 53 significand bits). -/
def binary64 : ℚ → ℚ := roundTo 53 (-1022)

/-- The rounding of IEEE 754 arithmetic: `float` is binary32 and `double` is
binary64. -/
def Rounding.ieee : Rounding ℚ :=
  have mem : ∀ t : ℚ, roundNE t = ⌊t⌋ ∨ roundNE t = ⌊t⌋ + 1 := by
    intro t
    unfold roundNE
    split_ifs <;> simp
  have nonneg : ∀ (p emin : ℤ) (x : ℚ), 0 ≤ x → 0 ≤ roundTo p emin x := by
    intro p emin x hx
    unfold roundTo
    split_ifs
    · exact le_refl 0
    · have hq : (0 : ℚ) < 2 ^ ulpExp p emin x := zpow_pos (by norm_num) _
      have hf : 0 ≤ ⌊x / 2 ^ ulpExp p emin x⌋ :=
        Int.floor_nonneg.mpr (div_nonneg hx hq.le)
      have hn : 0 ≤ roundNE (x / 2 ^ ulpExp p emin x) := by
        rcases mem (x / 2 ^ ulpExp p emin x) with h | h <;> omega
      exact mul_nonneg (by exact_mod_cast hn) hq.le
  have nonpos : ∀ (p emin : ℤ) (x : ℚ), x ≤ 0 → roundTo p emin x ≤ 0 := by
    intro p emin x hx
    unfold roundTo
    split_ifs with h0
    · exact le_refl 0
    · have hq : (0 : ℚ) < 2 ^ ulpExp p emin x := zpow_pos (by norm_num) _
      have hneg : x / 2 ^ ulpExp p emin x < 0 :=
        div_neg_of_neg_of_pos (lt_of_le_of_ne hx h0) hq
      have hf : ⌊x / 2 ^ ulpExp p emin x⌋ < 0 :=
        Int.floor_lt.mpr (by exact_mod_cast hneg)
      have hn : roundNE (x / 2 ^ ulpExp p emin x) ≤ 0 := by
        rcases mem (x / 2 ^ ulpExp p emin x) with h | h <;> omega
      exact mul_nonpos_iff.mpr (Or.inr ⟨by exact_mod_cast hn, hq.le⟩)
  { toFloat := binary32
    toDouble := binary64
    toFloat_nonneg := nonneg 24 (-126)
    toFloat_nonpos := nonpos 24 (-126)
    toDouble_nonneg := nonneg 53 (-1022)
    toDouble_nonpos := nonpos 53 (-1022) }

/-! ## Doubles that may be NaN -/

section NaN

variable {α : Type} [LinearOrderedField α]

/-- The comparison `a < b` of two doubles, `none` standing for NaN: a
comparison with NaN is false. -/
def nanLt : Option α → Option α → Bool
  | some x, some y => decide (x < y)
  | _, _ => false

/-- The comparison `a >= b` of two doubles, `none` standing for NaN: a
comparison with NaN is false. -/
def nanGe : Option α → Option α → Bool
  | some x, some y => decide (x ≥ y)
  | _, _ => false

/-- The C library `fabs`: NaN for NaN. -/
def nanFabs : Option α → Option α
  | some x => some |x|
  | none => none

/-- Product of two doubles: NaN when a factor is NaN. -/
def nanMul : Option α → Option α → Option α
  | some x, some y => some (x * y)
  | _, _ => none

/-- A filter object whose entries are all numbers, as doubles that may be NaN. -/
def KalmanFilter.toNaN (k : KalmanFilter α) : KalmanFilter (Option α) :=
  { x_ := k.x_.map some
    P_ := k.P_.map (List.map some)
    F_ := k.F_.map (List.map some)
    Q_ := k.Q_.map (List.map some)
    H_ := k.H_.map (List.map some)
    R_ := k.R_.map (List.map some) }

/-- An orchestrator whose entries are all numbers, as doubles that may be NaN. -/
def FusionEKF.toNaN (s : CarND.FusionEKF α) : CarND.FusionEKF (Option α) :=
  { ekf_ := KalmanFilter.toNaN s.ekf_
    is_initialized_ := s.is_initialized_
    previous_timestamp_ := s.previous_timestamp_
    R_laser_ := s.R_laser_.map (List.map some)
    R_radar_ := s.R_radar_.map (List.map some)
    H_laser_ := s.H_laser_.map (List.map some)
    Hj_ := s.Hj_.map (List.map some) }

/-- First-call branch of `ProcessMeasurement` (lines 57-113) over doubles that
may be NaN: the same statements as `FusionEKF.initialize_`, with `cos` and
`sin` of NaN being NaN and the comparisons of line 93 false on NaN. -/
def FusionEKF.initialize_nan (c : Collaborators α) (self : CarND.FusionEKF (Option α))
    (measurement_pack : MeasurementPackage (Option α)) :
    Option (CarND.FusionEKF (Option α) × List (Call (Option α))) := do
  let _x0 : VectorXd (Option α) := [some 1, some 1, some 1, some 1]
  let x1 : VectorXd (Option α) ←
    match measurement_pack.sensor_type_ with
    | .RADAR => do
      let rho ← measurement_pack.raw_measurements_[0]?
      let phi ← measurement_pack.raw_measurements_[1]?
      let _rho_dot ← measurement_pack.raw_measurements_[2]?
      let px := nanMul rho (phi.map c.cos)
      let py := nanMul rho (phi.map c.sin)
      let vx : Option α := some 0
      let vy : Option α := some 0
      pure ((([px, py, vx, vy] : VectorXd (Option α))))
    | .LASER => do
      let m0 ← measurement_pack.raw_measurements_[0]?
      let m1 ← measurement_pack.raw_measurements_[1]?
      pure ((([m0, m1, some 0, some 0] : VectorXd (Option α))))
  let a0 : Option α ← x1[0]?
  let a1 : Option α ← x1[1]?
  let x2 : VectorXd (Option α) :=
    if nanLt (nanFabs a0) (some (0.0001 : α)) && nanLt (nanFabs a1) (some (0.0001 : α)) then
      (x1.set 0 (some (0.0001 : α))).set 1 (some (0.0001 : α))
    else x1
  let P : MatrixXd (Option α) :=
    [[some 1, some 0, some 0, some 0],
     [some 0, some 1, some 0, some 0],
     [some 0, some 0, some 1000, some 0],
     [some 0, some 0, some 0, some 1000]]
  pure ({ self with
            ekf_ := { self.ekf_ with x_ := x2, P_ := P }
            previous_timestamp_ := measurement_pack.timestamp_
            is_initialized_ := true }, [])

end NaN

/-! ## Concrete objects for exhibiting runs -/

/-- A filter object with every member empty (size 0), as Eigen leaves
default-constructed dynamic vectors and matrices. -/
def KalmanFilter.empty {α : Type} : KalmanFilter α :=
  { x_ := [], P_ := [], F_ := [], Q_ := [], H_ := [], R_ := [] }

/-- Collaborators for concrete runs: arithmetic without rounding, the given `cos`
and `sin`, the prediction of the specification, and updates and a Jacobian that
do nothing.  The theorems below hold for all collaborators; these only serve to
run an example. -/
def Collaborators.idle {α : Type} [LinearOrderedField α] (cos sin : α → α) :
    Collaborators α :=
  { rounding := Rounding.exact
    cos := cos
    sin := sin
    CalculateJacobian := fun _ => []
    Predict := KalmanFilter.Predict
    Update := fun k _ => k
    UpdateEKF := fun k _ => k }

/-- Storage that happens to hold zeros. -/
def zeroMem {α : Type} [Zero α] : Nat → Nat → α := fun _ _ => 0

/-- A freshly constructed orchestrator over the rationals. -/
def freshQ : FusionEKF ℚ :=
  FusionEKF.FusionEKF KalmanFilter.empty zeroMem zeroMem

/-- Collaborators over the rationals for concrete runs; the stand-ins for `cos`
and `sin` are exact at 0 only. -/
def idleQ : Collaborators ℚ :=
  Collaborators.idle (fun _ => 1) (fun _ => 0)

/-- The collaborators `idleQ` with IEEE 754 rounding. -/
def ieeeQ : Collaborators ℚ :=
  { idleQ with rounding := Rounding.ieee }

/-- The orchestrator `freshQ` after a first call with the LASER record `[3, 4]`
at timestamp 0. -/
def trackingQ : FusionEKF ℚ :=
  { freshQ with
    ekf_ := { freshQ.ekf_ with
      x_ := [3, 4, 0, 0]
      P_ := [[1, 0, 0, 0], [0, 1, 0, 0], [0, 0, 1000, 0], [0, 0, 0, 1000]] }
    previous_timestamp_ := 0
    is_initialized_ := true }

/-! ## Well-formed records and sequences of calls -/

/-- Length of the raw measurement vector that goes with a tag, as the data
model of the specification has it: `[x, y]` for LASER and
`[range, bearing, range-rate]` for RADAR. -/
def SensorType.expectedLength : SensorType → Nat
  | .LASER => 2
  | .RADAR => 3

/-- Successive `ProcessMeasurement` calls on one orchestrator, as its caller
makes them: the final orchestrator and the call log of every call, in order. -/
def processAll {α : Type} [LinearOrderedField α] (c : Collaborators α) :
    FusionEKF α → List (MeasurementPackage α) → Option (FusionEKF α × List (List (Call α)))
  | s, [] => some (s, [])
  | s, m :: ms =>
    match FusionEKF.ProcessMeasurement c s m with
    | none => none
    | some (s1, calls) =>
      match processAll c s1 ms with
      | none => none
      | some (s2, logs) => some (s2, calls :: logs)

/-- The later-call branch alone, applied to successive records: the final
orchestrator and the call log of every call, in order. -/
def trackAll {α : Type} [LinearOrderedField α] (c : Collaborators α) :
    FusionEKF α → List (MeasurementPackage α) → FusionEKF α × List (List (Call α))
  | s, [] => (s, [])
  | s, m :: ms =>
    ((trackAll c (FusionEKF.track c s m).1 ms).1,
      (FusionEKF.track c s m).2 :: (trackAll c (FusionEKF.track c s m).1 ms).2)

/-- The quadratic form `vᵗ·A·v`. -/
def MatrixXd.quadForm {α : Type} [LinearOrderedField α] (A : MatrixXd α) (v : VectorXd α) : α :=
  dot v (MatrixXd.mulVec A v)

/-! ## Theorems -/

section IEEE

theorem roundNE_mem (t : ℚ) : roundNE t = ⌊t⌋ ∨ roundNE t = ⌊t⌋ + 1 := by
  unfold roundNE
  split_ifs <;> simp

theorem roundNE_eq (t : ℚ) (n : ℤ) (h1 : (n : ℚ) - 1 / 2 < t) (h2 : t < n + 1 / 2) :
    roundNE t = n := by
  rcases le_or_lt (n : ℚ) t with h | h
  · have hf : ⌊t⌋ = n := Int.floor_eq_iff.mpr ⟨h, by linarith⟩
    unfold roundNE
    rw [hf, if_pos (by linarith)]
  · have hf : ⌊t⌋ = n - 1 := Int.floor_eq_iff.mpr ⟨by push_cast; linarith, by push_cast; linarith⟩
    unfold roundNE
    rw [hf, if_neg (by push_cast; linarith), if_pos (by push_cast; linarith)]
    ring

theorem log_two_eq (x : ℚ) (e : ℤ) (h1 : (2 : ℚ) ^ e ≤ x) (h2 : x < 2 ^ (e + 1)) :
    Int.log 2 x = e := by
  have hx : 0 < x := lt_of_lt_of_le (zpow_pos (by norm_num) _) h1
  have a1 : ((2 : ℕ) : ℚ) ^ Int.log 2 x ≤ x := Int.zpow_log_le_self (by norm_num) hx
  have a2 : x < ((2 : ℕ) : ℚ) ^ (Int.log 2 x + 1) := Int.lt_zpow_succ_log_self (by norm_num) x
  rw [Nat.cast_ofNat] at a1 a2
  have b1 : (2 : ℚ) ^ e < 2 ^ (Int.log 2 x + 1) := lt_of_le_of_lt h1 a2
  have b2 : (2 : ℚ) ^ Int.log 2 x < 2 ^ (e + 1) := lt_of_le_of_lt a1 h2
  rw [zpow_lt_zpow_iff_right₀ (by norm_num)] at b1 b2
  omega

/-- Evaluation of the rounding of a positive number away from ties: `e` is its
binade and `n` the nearest multiple of the unit in the last place. -/
theorem roundTo_eval (p emin : ℤ) (x : ℚ) (e n : ℤ) (hlo : (2 : ℚ) ^ e ≤ x)
    (hhi : x < 2 ^ (e + 1)) (hemin : emin ≤ e)
    (h1 : (n : ℚ) - 1 / 2 < x / 2 ^ (e - (p - 1)))
    (h2 : x / 2 ^ (e - (p - 1)) < n + 1 / 2) :
    roundTo p emin x = n * 2 ^ (e - (p - 1)) := by
  have hpos : 0 < x := lt_of_lt_of_le (zpow_pos (by norm_num) _) hlo
  have hu : ulpExp p emin x = e - (p - 1) := by
    unfold ulpExp
    rw [abs_of_pos hpos, log_two_eq x e hlo hhi, max_eq_left hemin]
  unfold roundTo
  rw [if_neg (ne_of_gt hpos), hu, roundNE_eq _ n h1 h2]

theorem roundTo_zero (p emin : ℤ) : roundTo p emin 0 = 0 := by
  simp [roundTo]

/-- No binary32 value lies strictly between the adjacent values
`8796093 / 2^43` and `8796094 / 2^43`. -/
theorem binary32_gap (x : ℚ) :
    ¬ ((8796093 : ℚ) / 2 ^ 43 < binary32 x ∧ binary32 x < 8796094 / 2 ^ 43) := by
  rintro ⟨h1, h2⟩
  have hxpos : 0 < x := by
    by_contra hx
    have := Rounding.ieee.toFloat_nonpos x (not_lt.mp hx)
    unfold binary32 at h1
    have h0 : (0 : ℚ) < 8796093 / 2 ^ 43 := by norm_num
    exact absurd (lt_of_lt_of_le (lt_trans h0 h1) this) (lt_irrefl _)
  have hx0 : x ≠ 0 := ne_of_gt hxpos
  have habs : |x| = x := abs_of_pos hxpos
  have a1 : ((2 : ℕ) : ℚ) ^ Int.log 2 x ≤ x := Int.zpow_log_le_self (by norm_num) hxpos
  have a2 : x < ((2 : ℕ) : ℚ) ^ (Int.log 2 x + 1) := Int.lt_zpow_succ_log_self (by norm_num) x
  rw [Nat.cast_ofNat] at a1 a2
  unfold binary32 roundTo at h1 h2
  rw [if_neg hx0] at h1 h2
  unfold ulpExp at h1 h2
  rw [habs] at h1 h2
  generalize hL : Int.log 2 x = L at a1 a2 h1 h2
  have two_pos : (0 : ℚ) < 2 := by norm_num
  rcases le_or_lt (-126 : ℤ) L with hn | hsub
  · -- normal range
    rw [max_eq_left hn] at h1 h2
    have hk : (24 : ℤ) - 1 = 23 := by norm_num
    rw [hk] at h1 h2
    have hq : (0 : ℚ) < 2 ^ (L - 23) := zpow_pos two_pos _
    have e1 : (2 : ℚ) ^ L = 2 ^ (23 : ℤ) * 2 ^ (L - 23) := by
      rw [← zpow_add₀ (by norm_num : (2 : ℚ) ≠ 0)]
      congr 1
      ring
    have e2 : (2 : ℚ) ^ (L + 1) = 2 ^ (24 : ℤ) * 2 ^ (L - 23) := by
      rw [← zpow_add₀ (by norm_num : (2 : ℚ) ≠ 0)]
      congr 1
      ring
    have t1 : (2 : ℚ) ^ (23 : ℤ) ≤ x / 2 ^ (L - 23) := by
      rw [le_div_iff₀ hq, ← e1]
      exact a1
    have t2 : x / 2 ^ (L - 23) < (2 : ℚ) ^ (24 : ℤ) := by
      rw [div_lt_iff₀ hq, ← e2]
      exact a2
    have f1 : (2 : ℤ) ^ 23 ≤ ⌊x / (2 : ℚ) ^ (L - 23)⌋ := by
      rw [Int.le_floor]
      have : (((2 : ℤ) ^ 23 : ℤ) : ℚ) = 2 ^ (23 : ℤ) := by norm_num
      rw [this]
      exact t1
    have f2 : ⌊x / (2 : ℚ) ^ (L - 23)⌋ < (2 : ℤ) ^ 24 := by
      rw [Int.floor_lt]
      have : (((2 : ℤ) ^ 24 : ℤ) : ℚ) = 2 ^ (24 : ℤ) := by norm_num
      rw [this]
      exact t2
    have n1 : (2 : ℤ) ^ 23 ≤ roundNE (x / (2 : ℚ) ^ (L - 23)) := by
      rcases roundNE_mem (x / (2 : ℚ) ^ (L - 23)) with h | h <;> omega
    have n2 : roundNE (x / (2 : ℚ) ^ (L - 23)) ≤ (2 : ℤ) ^ 24 := by
      rcases roundNE_mem (x / (2 : ℚ) ^ (L - 23)) with h | h <;> omega
    have n1q : (2 : ℚ) ^ (23 : ℤ) ≤ (roundNE (x / (2 : ℚ) ^ (L - 23)) : ℚ) := by
      have : (((2 : ℤ) ^ 23 : ℤ) : ℚ) ≤ (roundNE (x / (2 : ℚ) ^ (L - 23)) : ℚ) := by
        exact_mod_cast n1
      norm_num at this ⊢
      exact this
    have n2q : (roundNE (x / (2 : ℚ) ^ (L - 23)) : ℚ) ≤ (2 : ℚ) ^ (24 : ℤ) := by
      have : (roundNE (x / (2 : ℚ) ^ (L - 23)) : ℚ) ≤ (((2 : ℤ) ^ 24 : ℤ) : ℚ) := by
        exact_mod_cast n2
      norm_num at this ⊢
      exact this
    have v1 : (2 : ℚ) ^ L ≤ (roundNE (x / (2 : ℚ) ^ (L - 23)) : ℚ) * 2 ^ (L - 23) := by
      rw [e1]
      exact mul_le_mul_of_nonneg_right n1q hq.le
    have v2 : (roundNE (x / (2 : ℚ) ^ (L - 23)) : ℚ) * 2 ^ (L - 23) ≤ (2 : ℚ) ^ (L + 1) := by
      rw [e2]
      exact mul_le_mul_of_nonneg_right n2q hq.le
    have b1 : (2 : ℚ) ^ L < 2 ^ (-19 : ℤ) := by
      have : (8796094 : ℚ) / 2 ^ 43 < 2 ^ (-19 : ℤ) := by norm_num
      exact lt_of_le_of_lt v1 (lt_trans h2 this)
    have b2 : (2 : ℚ) ^ (-20 : ℤ) < 2 ^ (L + 1) := by
      have : (2 : ℚ) ^ (-20 : ℤ) < 8796093 / 2 ^ 43 := by norm_num
      exact lt_of_lt_of_le (lt_trans this h1) v2
    rw [zpow_lt_zpow_iff_right₀ (by norm_num)] at b1 b2
    have hLeq : L = -20 := by omega
    subst hLeq
    have hpow : (2 : ℚ) ^ ((-20 : ℤ) - 23) = 1 / 2 ^ 43 := by norm_num
    rw [hpow] at h1 h2
    generalize roundNE (x / (1 / 2 ^ 43)) = n at h1 h2
    have c1 : (8796093 : ℚ) < n := by
      have h := h1
      rw [mul_one_div] at h
      exact (div_lt_div_iff_of_pos_right (by norm_num)).mp h
    have c2 : (n : ℚ) < 8796094 := by
      have h := h2
      rw [mul_one_div] at h
      exact (div_lt_div_iff_of_pos_right (by norm_num)).mp h
    have d1 : (8796093 : ℤ) < n := by exact_mod_cast c1
    have d2 : n < (8796094 : ℤ) := by exact_mod_cast c2
    omega
  · -- subnormal range
    rw [max_eq_right hsub.le] at h1
    have hk : (-126 : ℤ) - (24 - 1) = -149 := by norm_num
    rw [hk] at h1
    have hq : (0 : ℚ) < 2 ^ (-149 : ℤ) := zpow_pos two_pos _
    have a3 : x < (2 : ℚ) ^ (-126 : ℤ) :=
      lt_of_lt_of_le a2 (zpow_le_zpow_right₀ (by norm_num) (by omega))
    have t2 : x / 2 ^ (-149 : ℤ) < (2 : ℚ) ^ (23 : ℤ) := by
      rw [div_lt_iff₀ hq]
      have : (2 : ℚ) ^ (23 : ℤ) * 2 ^ (-149 : ℤ) = 2 ^ (-126 : ℤ) := by
        rw [← zpow_add₀ (by norm_num : (2 : ℚ) ≠ 0)]
        norm_num
      rw [this]
      exact a3
    have f2 : ⌊x / (2 : ℚ) ^ (-149 : ℤ)⌋ < (2 : ℤ) ^ 23 := by
      rw [Int.floor_lt]
      have : (((2 : ℤ) ^ 23 : ℤ) : ℚ) = 2 ^ (23 : ℤ) := by norm_num
      rw [this]
      exact t2
    have n2 : roundNE (x / (2 : ℚ) ^ (-149 : ℤ)) ≤ (2 : ℤ) ^ 23 := by
      rcases roundNE_mem (x / (2 : ℚ) ^ (-149 : ℤ)) with h | h <;> omega
    have n2q : (roundNE (x / (2 : ℚ) ^ (-149 : ℤ)) : ℚ) ≤ (2 : ℚ) ^ (23 : ℤ) := by
      have : (roundNE (x / (2 : ℚ) ^ (-149 : ℤ)) : ℚ) ≤ (((2 : ℤ) ^ 23 : ℤ) : ℚ) := by
        exact_mod_cast n2
      norm_num at this ⊢
      exact this
    have v2 : (roundNE (x / (2 : ℚ) ^ (-149 : ℤ)) : ℚ) * 2 ^ (-149 : ℤ)
        ≤ (2 : ℚ) ^ (23 : ℤ) * 2 ^ (-149 : ℤ) :=
      mul_le_mul_of_nonneg_right n2q hq.le
    have small : (2 : ℚ) ^ (23 : ℤ) * 2 ^ (-149 : ℤ) < 8796093 / 2 ^ 43 := by
      rw [← zpow_add₀ (by norm_num : (2 : ℚ) ≠ 0)]
      norm_num
    exact absurd (lt_of_lt_of_le h1 (le_trans v2 small.le)) (lt_irrefl _)

/-- The integer 50000 is a `float`. -/
theorem binary32_50000 :
    binary32 (50000) = 50000 := by
  have h := roundTo_eval 24 (-126) (50000) (15) 12800000
    (by norm_num) (by norm_num) (by norm_num) (by norm_num) (by norm_num)
  unfold binary32
  rw [h]
  norm_num

/-- The quotient 50000 / 1000000 in `double`. -/
theorem binary64_50000_quotient :
    binary64 (50000 / 1000000.0) = 3602879701896397 / 72057594037927936 := by
  have hx : (50000 / 1000000.0 : ℚ) = 1 / 20 := by norm_num
  have h := roundTo_eval 53 (-1022) (1 / 20) (-5) 7205759403792794
    (by norm_num) (by norm_num) (by norm_num) (by norm_num) (by norm_num)
  unfold binary64
  rw [hx, h]
  norm_num

/-- The `double` quotient 50000 / 1000000 narrowed to `float`. -/
theorem binary32_50000_quotient :
    binary32 (3602879701896397 / 72057594037927936) = 13421773 / 268435456 := by
  have h := roundTo_eval 24 (-126) (3602879701896397 / 72057594037927936) (-5) 13421773
    (by norm_num) (by norm_num) (by norm_num) (by norm_num) (by norm_num)
  unfold binary32
  rw [h]
  norm_num

/-- The number 9 is a `float`. -/
theorem binary32_nine_numeral :
    binary32 (9) = 9 := by
  have h := roundTo_eval 24 (-126) (9) (3) 9437184
    (by norm_num) (by norm_num) (by norm_num) (by norm_num) (by norm_num)
  unfold binary32
  rw [h]
  norm_num

/-- The noise intensity 9 is a `float`. -/
theorem binary32_nine :
    binary32 (9.0) = 9 := by
  have hx : (9.0 : ℚ) = 9 := by norm_num
  have h := roundTo_eval 24 (-126) (9) (3) 9437184
    (by norm_num) (by norm_num) (by norm_num) (by norm_num) (by norm_num)
  unfold binary32
  rw [hx, h]
  norm_num

/-- `dt_2` of line 140 at the 50 ms step. -/
theorem binary32_dt_2 :
    binary32 (13421773 / 268435456 * (13421773 / 268435456)) = 10737419 / 4294967296 := by
  have hx : (13421773 / 268435456 * (13421773 / 268435456) : ℚ) = 180143990463529 / 72057594037927936 := by norm_num
  have h := roundTo_eval 24 (-126) (180143990463529 / 72057594037927936) (-9) 10737419
    (by norm_num) (by norm_num) (by norm_num) (by norm_num) (by norm_num)
  unfold binary32
  rw [hx, h]
  norm_num

/-- `dt_3` of line 141 at the 50 ms step. -/
theorem binary32_dt_3 :
    binary32 (10737419 / 4294967296 * (13421773 / 268435456)) = 8589935 / 68719476736 := by
  have hx : (10737419 / 4294967296 * (13421773 / 268435456) : ℚ) = 144115200423887 / 1152921504606846976 := by norm_num
  have h := roundTo_eval 24 (-126) (144115200423887 / 1152921504606846976) (-13) 8589935
    (by norm_num) (by norm_num) (by norm_num) (by norm_num) (by norm_num)
  unfold binary32
  rw [hx, h]
  norm_num

/-- `dt_4` of line 142 at the 50 ms step. -/
theorem binary32_dt_4 :
    binary32 (8589935 / 68719476736 * (13421773 / 268435456)) = 1717987 / 274877906944 := by
  have hx : (8589935 / 68719476736 * (13421773 / 268435456) : ℚ) = 115292157654755 / 18446744073709551616 := by norm_num
  have h := roundTo_eval 24 (-126) (115292157654755 / 18446744073709551616) (-18) 13743896
    (by norm_num) (by norm_num) (by norm_num) (by norm_num) (by norm_num)
  unfold binary32
  rw [hx, h]
  norm_num

/-- `dt_4_4` of line 143 at the 50 ms step. -/
theorem binary32_dt_4_4 :
    binary32 (1717987 / 274877906944 / 4) = 1717987 / 1099511627776 := by
  have hx : (1717987 / 274877906944 / 4 : ℚ) = 1717987 / 1099511627776 := by norm_num
  have h := roundTo_eval 24 (-126) (1717987 / 1099511627776) (-20) 13743896
    (by norm_num) (by norm_num) (by norm_num) (by norm_num) (by norm_num)
  unfold binary32
  rw [hx, h]
  norm_num

/-- `dt_3_2` of line 144 at the 50 ms step. -/
theorem binary32_dt_3_2 :
    binary32 (8589935 / 68719476736 / 2) = 8589935 / 137438953472 := by
  have hx : (8589935 / 68719476736 / 2 : ℚ) = 8589935 / 137438953472 := by norm_num
  have h := roundTo_eval 24 (-126) (8589935 / 137438953472) (-14) 8589935
    (by norm_num) (by norm_num) (by norm_num) (by norm_num) (by norm_num)
  unfold binary32
  rw [hx, h]
  norm_num

/-- Entry `dt_4_4 * noise_ax` of line 147 at the 50 ms step. -/
theorem binary32_q_pos :
    binary32 (1717987 / 1099511627776 * 9) = 15461883 / 1099511627776 := by
  have hx : (1717987 / 1099511627776 * 9 : ℚ) = 15461883 / 1099511627776 := by norm_num
  have h := roundTo_eval 24 (-126) (15461883 / 1099511627776) (-17) 15461883
    (by norm_num) (by norm_num) (by norm_num) (by norm_num) (by norm_num)
  unfold binary32
  rw [hx, h]
  norm_num

/-- Entry `dt_3_2 * noise_ax` of line 147 at the 50 ms step. -/
theorem binary32_q_cross :
    binary32 (8589935 / 137438953472 * 9) = 9663677 / 17179869184 := by
  have hx : (8589935 / 137438953472 * 9 : ℚ) = 77309415 / 137438953472 := by norm_num
  have h := roundTo_eval 24 (-126) (77309415 / 137438953472) (-11) 9663677
    (by norm_num) (by norm_num) (by norm_num) (by norm_num) (by norm_num)
  unfold binary32
  rw [hx, h]
  norm_num

/-- Entry `dt_2 * noise_ax` of line 149 at the 50 ms step. -/
theorem binary32_q_vel :
    binary32 (10737419 / 4294967296 * 9) = 3019899 / 134217728 := by
  have hx : (10737419 / 4294967296 * 9 : ℚ) = 96636771 / 4294967296 := by norm_num
  have h := roundTo_eval 24 (-126) (96636771 / 4294967296) (-6) 12079596
    (by norm_num) (by norm_num) (by norm_num) (by norm_num) (by norm_num)
  unfold binary32
  rw [hx, h]
  norm_num

/-- The integer 1 is a `float`. -/
theorem binary32_one :
    binary32 (1) = 1 := by
  have h := roundTo_eval 24 (-126) (1) (0) 8388608
    (by norm_num) (by norm_num) (by norm_num) (by norm_num) (by norm_num)
  unfold binary32
  rw [h]
  norm_num

/-- The quotient 1 / 1000000 in `double`. -/
theorem binary64_micro :
    binary64 (1 / 1000000.0) = 4722366482869645 / 4722366482869645213696 := by
  have hx : (1 / 1000000.0 : ℚ) = 1 / 1000000 := by norm_num
  have h := roundTo_eval 53 (-1022) (1 / 1000000) (-20) 4722366482869645
    (by norm_num) (by norm_num) (by norm_num) (by norm_num) (by norm_num)
  unfold binary64
  rw [hx, h]
  norm_num

/-- The `double` quotient 1 / 1000000 narrowed to `float`. -/
theorem binary32_micro :
    binary32 (4722366482869645 / 4722366482869645213696) = 8796093 / 8796093022208 := by
  have h := roundTo_eval 24 (-126) (4722366482869645 / 4722366482869645213696) (-20) 8796093
    (by norm_num) (by norm_num) (by norm_num) (by norm_num) (by norm_num)
  unfold binary32
  rw [h]
  norm_num

/-- The integer 2 is a `float`. -/
theorem binary32_two :
    binary32 (2) = 2 := by
  have h := roundTo_eval 24 (-126) (2) (1) 8388608
    (by norm_num) (by norm_num) (by norm_num) (by norm_num) (by norm_num)
  unfold binary32
  rw [h]
  norm_num

/-- The quotient 2 / 1000000 in `double`. -/
theorem binary64_two_micro :
    binary64 (2 / 1000000.0) = 4722366482869645 / 2361183241434822606848 := by
  have hx : (2 / 1000000.0 : ℚ) = 1 / 500000 := by norm_num
  have h := roundTo_eval 53 (-1022) (1 / 500000) (-19) 4722366482869645
    (by norm_num) (by norm_num) (by norm_num) (by norm_num) (by norm_num)
  unfold binary64
  rw [hx, h]
  norm_num

/-- The `double` quotient 2 / 1000000 narrowed to `float`. -/
theorem binary32_two_micro :
    binary32 (4722366482869645 / 2361183241434822606848) = 8796093 / 4398046511104 := by
  have h := roundTo_eval 24 (-126) (4722366482869645 / 2361183241434822606848) (-19) 8796093
    (by norm_num) (by norm_num) (by norm_num) (by norm_num) (by norm_num)
  unfold binary32
  rw [h]
  norm_num

end IEEE

section FirstCall

variable {α : Type} [LinearOrderedField α]

theorem initialize_laser (c : Collaborators α) (s : FusionEKF α) (ts : Int)
    (x y : α) :
    FusionEKF.initialize_ c s ⟨ts, .LASER, [x, y]⟩ =
      some ({ s with
                ekf_ := { s.ekf_ with
                  x_ := if |x| < (0.0001 : α) ∧ |y| < (0.0001 : α)
                        then [0.0001, 0.0001, 0, 0] else [x, y, 0, 0]
                  P_ := [[1, 0, 0, 0], [0, 1, 0, 0], [0, 0, 1000, 0], [0, 0, 0, 1000]] }
                previous_timestamp_ := ts
                is_initialized_ := true }, []) := by
  by_cases h : |x| < (0.0001 : α) ∧ |y| < (0.0001 : α)
  · simp [FusionEKF.initialize_, h]
  · simp [FusionEKF.initialize_, h]

theorem initialize_radar (c : Collaborators α) (s : FusionEKF α) (ts : Int)
    (rho phi rho_dot : α) :
    FusionEKF.initialize_ c s ⟨ts, .RADAR, [rho, phi, rho_dot]⟩ =
      some ({ s with
                ekf_ := { s.ekf_ with
                  x_ := if |rho * c.cos phi| < (0.0001 : α) ∧ |rho * c.sin phi| < (0.0001 : α)
                        then [0.0001, 0.0001, 0, 0]
                        else [rho * c.cos phi, rho * c.sin phi, 0, 0]
                  P_ := [[1, 0, 0, 0], [0, 1, 0, 0], [0, 0, 1000, 0], [0, 0, 0, 1000]] }
                previous_timestamp_ := ts
                is_initialized_ := true }, []) := by
  by_cases h : |rho * c.cos phi| < (0.0001 : α) ∧ |rho * c.sin phi| < (0.0001 : α)
  · simp [FusionEKF.initialize_, h]
  · simp [FusionEKF.initialize_, h]

theorem processMeasurement_first (c : Collaborators α) (s : FusionEKF α)
    (m : MeasurementPackage α) (hs : s.is_initialized_ = false) :
    FusionEKF.ProcessMeasurement c s m = FusionEKF.initialize_ c s m := by
  simp [FusionEKF.ProcessMeasurement, hs]

/-- C1: on an orchestrator that has not been initialized (in particular a
freshly constructed one, whatever covariance it holds), the first
`ProcessMeasurement` call with a LASER (linear) record `[x, y]` whose values are
not both below 0.0001 in magnitude succeeds and leaves the state vector
`[x, y, 0, 0]` and the covariance `diag(1, 1, 1000, 1000)`. -/
theorem first_call_laser_state (c : Collaborators α) (s : FusionEKF α) (ts : Int)
    (x y : α) (hs : s.is_initialized_ = false)
    (hxy : ¬ (|x| < (0.0001 : α) ∧ |y| < (0.0001 : α))) :
    ∃ s1 calls, FusionEKF.ProcessMeasurement c s ⟨ts, .LASER, [x, y]⟩ = some (s1, calls) ∧
      s1.ekf_.x_ = [x, y, 0, 0] ∧
      s1.ekf_.P_ = [[1, 0, 0, 0], [0, 1, 0, 0], [0, 0, 1000, 0], [0, 0, 0, 1000]] := by
  rw [processMeasurement_first c s _ hs, initialize_laser]
  exact ⟨_, _, rfl, by simp [hxy], rfl⟩

/-- Witness for C1: the record `[3, 4]` on a freshly constructed orchestrator
gives the state vector `[3, 4, 0, 0]`. -/
theorem first_call_laser_state_witness :
    freshQ.is_initialized_ = false ∧ ¬ (|(3 : ℚ)| < 0.0001 ∧ |(4 : ℚ)| < 0.0001) ∧
    ∃ s1 calls,
      FusionEKF.ProcessMeasurement idleQ freshQ
        ⟨0, .LASER, [3, 4]⟩ = some (s1, calls) ∧
      s1.ekf_.x_ = [3, 4, 0, 0] ∧
      s1.ekf_.P_ = [[1, 0, 0, 0], [0, 1, 0, 0], [0, 0, 1000, 0], [0, 0, 0, 1000]] :=
  ⟨rfl, by norm_num [abs_lt], first_call_laser_state idleQ freshQ 0 3 4 rfl (by norm_num [abs_lt])⟩

/-- C2: on an orchestrator that has not been initialized, the first
`ProcessMeasurement` call with a RADAR (nonlinear) record
`[rho, phi, rho_dot]` whose converted position is not clamped succeeds and
leaves the state vector `[rho * cos phi, rho * sin phi, 0, 0]`, in which
`rho_dot` does not occur, and the covariance `diag(1, 1, 1000, 1000)`. -/
theorem first_call_radar_state (c : Collaborators α) (s : FusionEKF α) (ts : Int)
    (rho phi rho_dot : α) (hs : s.is_initialized_ = false)
    (hxy : ¬ (|rho * c.cos phi| < (0.0001 : α) ∧ |rho * c.sin phi| < (0.0001 : α))) :
    ∃ s1 calls,
      FusionEKF.ProcessMeasurement c s ⟨ts, .RADAR, [rho, phi, rho_dot]⟩ = some (s1, calls) ∧
      s1.ekf_.x_ = [rho * c.cos phi, rho * c.sin phi, 0, 0] ∧
      s1.ekf_.P_ = [[1, 0, 0, 0], [0, 1, 0, 0], [0, 0, 1000, 0], [0, 0, 0, 1000]] := by
  rw [processMeasurement_first c s _ hs, initialize_radar]
  exact ⟨_, _, rfl, by simp [hxy], rfl⟩

/-- Witness for C2: with the real cosine and sine, the record `[5, 0, 0]` on a
freshly constructed orchestrator gives the state vector `[5, 0, 0, 0]`. -/
theorem first_call_radar_state_witness :
    (FusionEKF.FusionEKF KalmanFilter.empty zeroMem zeroMem : FusionEKF ℝ).is_initialized_
      = false ∧
    ¬ (|(5 : ℝ) * Real.cos 0| < 0.0001 ∧ |(5 : ℝ) * Real.sin 0| < 0.0001) ∧
    ∃ s1 calls,
      FusionEKF.ProcessMeasurement (Collaborators.idle Real.cos Real.sin)
        (FusionEKF.FusionEKF KalmanFilter.empty zeroMem zeroMem)
        ⟨0, .RADAR, [5, 0, 0]⟩ = some (s1, calls) ∧
      s1.ekf_.x_ = [5, 0, 0, 0] ∧
      s1.ekf_.P_ = [[1, 0, 0, 0], [0, 1, 0, 0], [0, 0, 1000, 0], [0, 0, 0, 1000]] := by
  have h := first_call_radar_state (Collaborators.idle Real.cos Real.sin)
    (FusionEKF.FusionEKF KalmanFilter.empty zeroMem zeroMem) 0 5 0 0 rfl
    (by norm_num [Collaborators.idle, abs_lt])
  refine ⟨rfl, by norm_num [abs_lt], ?_⟩
  simpa [Collaborators.idle] using h

/-- C3: on the first `ProcessMeasurement` call the position built from the
record (`[x, y]` for LASER, `[rho * cos phi, rho * sin phi]` for RADAR) is
replaced by `[0.0001, 0.0001]` exactly when both of its components are below
0.0001 in magnitude, and is kept otherwise; the velocities are 0 either way. -/
theorem first_call_clamp (c : Collaborators α) (s : FusionEKF α) (ts : Int)
    (hs : s.is_initialized_ = false) :
    (∀ x y : α, ∃ s1 calls,
      FusionEKF.ProcessMeasurement c s ⟨ts, .LASER, [x, y]⟩ = some (s1, calls) ∧
      s1.ekf_.x_ = if |x| < (0.0001 : α) ∧ |y| < (0.0001 : α)
                   then [0.0001, 0.0001, 0, 0] else [x, y, 0, 0]) ∧
    (∀ rho phi rho_dot : α, ∃ s1 calls,
      FusionEKF.ProcessMeasurement c s ⟨ts, .RADAR, [rho, phi, rho_dot]⟩ = some (s1, calls) ∧
      s1.ekf_.x_ = if |rho * c.cos phi| < (0.0001 : α) ∧ |rho * c.sin phi| < (0.0001 : α)
                   then [0.0001, 0.0001, 0, 0]
                   else [rho * c.cos phi, rho * c.sin phi, 0, 0]) := by
  constructor
  · intro x y
    rw [processMeasurement_first c s _ hs, initialize_laser]
    exact ⟨_, _, rfl, rfl⟩
  · intro rho phi rho_dot
    rw [processMeasurement_first c s _ hs, initialize_radar]
    exact ⟨_, _, rfl, rfl⟩

/-- Witness for C3: the LASER record `[0, 0]` is clamped to `[0.0001, 0.0001]`
and the LASER record `[0, 4]` is kept. -/
theorem first_call_clamp_witness :
    freshQ.is_initialized_ = false ∧
    (∃ s1 calls,
      FusionEKF.ProcessMeasurement idleQ freshQ
        ⟨0, .LASER, [0, 0]⟩ = some (s1, calls) ∧
      s1.ekf_.x_ = [0.0001, 0.0001, 0, 0]) ∧
    (∃ s1 calls,
      FusionEKF.ProcessMeasurement idleQ freshQ
        ⟨0, .LASER, [0, 4]⟩ = some (s1, calls) ∧
      s1.ekf_.x_ = [0, 4, 0, 0]) := by
  have h := first_call_clamp idleQ freshQ 0 rfl
  refine ⟨rfl, ?_, ?_⟩
  · have h0 := h.1 0 0
    rw [if_pos (by norm_num [abs_lt])] at h0
    exact h0
  · have h4 := h.1 0 4
    rw [if_neg (by norm_num [abs_lt])] at h4
    exact h4

end FirstCall

section Tracking

variable {α : Type} [LinearOrderedField α]

theorem processMeasurement_later (c : Collaborators α) (s : FusionEKF α)
    (m : MeasurementPackage α) (hs : s.is_initialized_ = true) :
    FusionEKF.ProcessMeasurement c s m = some (FusionEKF.track c s m) := by
  simp [FusionEKF.ProcessMeasurement, hs]

theorem track_laser_skip (c : Collaborators α) (s : FusionEKF α) (ts : Int) (z : VectorXd α)
    (h : ¬ (FusionEKF.elapsed c.rounding ts s.previous_timestamp_ : α) ≥ 0.000001) :
    FusionEKF.track c s ⟨ts, .LASER, z⟩ =
      ({ s with
          previous_timestamp_ := ts
          ekf_ := c.Update { rebuilt c s ⟨ts, .LASER, z⟩ with H_ := s.H_laser_, R_ := s.R_laser_ } z },
        [Call.Update { rebuilt c s ⟨ts, .LASER, z⟩ with H_ := s.H_laser_, R_ := s.R_laser_ } z]) := by
  simp [FusionEKF.track, rebuilt, h]

theorem track_laser_predict (c : Collaborators α) (s : FusionEKF α) (ts : Int) (z : VectorXd α)
    (h : (FusionEKF.elapsed c.rounding ts s.previous_timestamp_ : α) ≥ 0.000001) :
    FusionEKF.track c s ⟨ts, .LASER, z⟩ =
      ({ s with
          previous_timestamp_ := ts
          ekf_ := c.Update { c.Predict (rebuilt c s ⟨ts, .LASER, z⟩) with
                              H_ := s.H_laser_, R_ := s.R_laser_ } z },
        [Call.Predict (rebuilt c s ⟨ts, .LASER, z⟩),
         Call.Update { c.Predict (rebuilt c s ⟨ts, .LASER, z⟩) with
                        H_ := s.H_laser_, R_ := s.R_laser_ } z]) := by
  simp [FusionEKF.track, rebuilt, h]

theorem track_radar_skip (c : Collaborators α) (s : FusionEKF α) (ts : Int) (z : VectorXd α)
    (h : ¬ (FusionEKF.elapsed c.rounding ts s.previous_timestamp_ : α) ≥ 0.000001) :
    FusionEKF.track c s ⟨ts, .RADAR, z⟩ =
      ({ s with
          previous_timestamp_ := ts
          ekf_ := c.UpdateEKF { rebuilt c s ⟨ts, .RADAR, z⟩ with
                    H_ := c.CalculateJacobian s.ekf_.x_, R_ := s.R_radar_ } z },
        [Call.CalculateJacobian (rebuilt c s ⟨ts, .RADAR, z⟩),
         Call.UpdateEKF { rebuilt c s ⟨ts, .RADAR, z⟩ with
                    H_ := c.CalculateJacobian s.ekf_.x_, R_ := s.R_radar_ } z]) := by
  simp [FusionEKF.track, rebuilt, h]

theorem track_radar_predict (c : Collaborators α) (s : FusionEKF α) (ts : Int) (z : VectorXd α)
    (h : (FusionEKF.elapsed c.rounding ts s.previous_timestamp_ : α) ≥ 0.000001) :
    FusionEKF.track c s ⟨ts, .RADAR, z⟩ =
      ({ s with
          previous_timestamp_ := ts
          ekf_ := c.UpdateEKF { c.Predict (rebuilt c s ⟨ts, .RADAR, z⟩) with
                    H_ := c.CalculateJacobian (c.Predict (rebuilt c s ⟨ts, .RADAR, z⟩)).x_,
                    R_ := s.R_radar_ } z },
        [Call.Predict (rebuilt c s ⟨ts, .RADAR, z⟩),
         Call.CalculateJacobian (c.Predict (rebuilt c s ⟨ts, .RADAR, z⟩)),
         Call.UpdateEKF { c.Predict (rebuilt c s ⟨ts, .RADAR, z⟩) with
                    H_ := c.CalculateJacobian (c.Predict (rebuilt c s ⟨ts, .RADAR, z⟩)).x_,
                    R_ := s.R_radar_ } z]) := by
  simp [FusionEKF.track, rebuilt, h]


theorem trackingQ_first_call :
    FusionEKF.ProcessMeasurement idleQ freshQ ⟨0, .LASER, [3, 4]⟩ = some (trackingQ, []) := by
  rw [processMeasurement_first idleQ freshQ _ rfl, initialize_laser]
  rw [if_neg (by norm_num [abs_lt])]
  rfl

theorem trackingQ_reachable :
    Reachable idleQ KalmanFilter.empty zeroMem zeroMem trackingQ :=
  Reachable.step _ Reachable.fresh trackingQ_first_call

/-- The guard of line 153: in the Tracking state `ProcessMeasurement` succeeds
and invokes `Predict()`, once, if and only if the `float` value `dt` satisfies
`dt >= 0.000001`. -/
theorem predict_iff_elapsed_ge (c : Collaborators α) (s : FusionEKF α)
    (m : MeasurementPackage α) (hs : s.is_initialized_ = true) :
    ∃ s1 calls, FusionEKF.ProcessMeasurement c s m = some (s1, calls) ∧
      (CallKind.Predict ∈ calls.map Call.kind ↔
        (FusionEKF.elapsed c.rounding m.timestamp_ s.previous_timestamp_ : α) ≥ 0.000001) ∧
      (calls.map Call.kind).count CallKind.Predict ≤ 1 := by
  obtain ⟨ts, tag, z⟩ := m
  rw [processMeasurement_later c s _ hs]
  by_cases h : (FusionEKF.elapsed c.rounding ts s.previous_timestamp_ : α) ≥ 0.000001
  · cases tag
    · rw [track_laser_predict c s ts z h]
      exact ⟨_, _, rfl, by simp [Call.kind, h]⟩
    · rw [track_radar_predict c s ts z h]
      exact ⟨_, _, rfl, by simp [Call.kind, h]⟩
  · cases tag
    · rw [track_laser_skip c s ts z h]
      exact ⟨_, _, rfl, by simp [Call.kind, h]⟩
    · rw [track_radar_skip c s ts z h]
      exact ⟨_, _, rfl, by simp [Call.kind, h]⟩

/-- Elapsed time of a record that is not later than the reference timestamp is
not positive. -/
theorem elapsed_nonpos (r : Rounding α) (ts prev : Int) (h : ts ≤ prev) :
    (FusionEKF.elapsed r ts prev : α) ≤ 0 := by
  have h1 : ((ts - prev : Int) : α) ≤ 0 := by
    exact_mod_cast sub_nonpos.mpr h
  unfold FusionEKF.elapsed
  exact r.toFloat_nonpos _ (r.toDouble_nonpos _
    (div_nonpos_of_nonpos_of_nonneg (r.toFloat_nonpos _ h1) (by norm_num)))

/-- Elapsed time of a record that is not later than the reference timestamp is
below the prediction threshold. -/
theorem elapsed_stale (r : Rounding α) (ts prev : Int) (h : ts ≤ prev) :
    ¬ (FusionEKF.elapsed r ts prev : α) ≥ 0.000001 := by
  have h2 := elapsed_nonpos r ts prev h
  have h3 : (0 : α) < 0.000001 := by norm_num
  exact not_le.mpr (lt_of_le_of_lt h2 h3)

/-- C5: in the Tracking state, for a record whose timestamp equals or precedes
the stored reference timestamp, `ProcessMeasurement` succeeds without calling
`Predict()`; it makes exactly one update call, `Update` for a LASER record and
`UpdateEKF` (after `CalculateJacobian`) for a RADAR record, on a filter object
whose state vector and covariance are those held before the call, with the raw
measurement as argument, and keeps what that update returns. -/
theorem stale_timestamp_skips_predict (c : Collaborators α) (s : FusionEKF α)
    (m : MeasurementPackage α) (hs : s.is_initialized_ = true)
    (ht : m.timestamp_ ≤ s.previous_timestamp_) :
    ∃ s1 calls, FusionEKF.ProcessMeasurement c s m = some (s1, calls) ∧
      CallKind.Predict ∉ calls.map Call.kind ∧
      (m.sensor_type_ = SensorType.LASER →
        ∃ k, calls = [Call.Update k m.raw_measurements_] ∧
          k.x_ = s.ekf_.x_ ∧ k.P_ = s.ekf_.P_ ∧
          s1.ekf_ = c.Update k m.raw_measurements_) ∧
      (m.sensor_type_ = SensorType.RADAR →
        ∃ kj k, calls = [Call.CalculateJacobian kj, Call.UpdateEKF k m.raw_measurements_] ∧
          kj.x_ = s.ekf_.x_ ∧ k.x_ = s.ekf_.x_ ∧ k.P_ = s.ekf_.P_ ∧
          s1.ekf_ = c.UpdateEKF k m.raw_measurements_) := by
  obtain ⟨ts, tag, z⟩ := m
  have h := elapsed_stale c.rounding ts s.previous_timestamp_ ht
  rw [processMeasurement_later c s _ hs]
  cases tag
  · rw [track_laser_skip c s ts z h]
    exact ⟨_, _, rfl, by simp [Call.kind], fun _ => ⟨_, rfl, rfl, rfl, rfl⟩,
      fun hc => by cases hc⟩
  · rw [track_radar_skip c s ts z h]
    exact ⟨_, _, rfl, by simp [Call.kind], (fun hc => by cases hc),
      fun _ => ⟨_, _, rfl, rfl, rfl, rfl, rfl⟩⟩

/-- Witness for C5: a second LASER record with the timestamp of the first. -/
theorem stale_timestamp_skips_predict_witness :
    trackingQ.is_initialized_ = true ∧ (0 : Int) ≤ trackingQ.previous_timestamp_ ∧
    ∃ s1 calls, FusionEKF.ProcessMeasurement idleQ trackingQ ⟨0, .LASER, [3, 4]⟩
        = some (s1, calls) ∧
      CallKind.Predict ∉ calls.map Call.kind ∧
      ∃ k, calls = [Call.Update k [3, 4]] ∧ k.x_ = [3, 4, 0, 0] ∧
        k.P_ = [[1, 0, 0, 0], [0, 1, 0, 0], [0, 0, 1000, 0], [0, 0, 0, 1000]] := by
  obtain ⟨s1, calls, h1, h2, h3, _⟩ :=
    stale_timestamp_skips_predict idleQ trackingQ ⟨0, .LASER, [3, 4]⟩ rfl (le_refl _)
  obtain ⟨k, hk, hx, hP, _⟩ := h3 rfl
  exact ⟨rfl, le_refl _, s1, calls, h1, h2, k, hk, hx, hP⟩


theorem initialize_frame (c : Collaborators α) (s s1 : FusionEKF α)
    (m : MeasurementPackage α) (calls : List (Call α))
    (h : FusionEKF.initialize_ c s m = some (s1, calls)) :
    s1.R_laser_ = s.R_laser_ ∧ s1.R_radar_ = s.R_radar_ ∧ s1.H_laser_ = s.H_laser_ ∧
    s1.Hj_ = s.Hj_ ∧ s1.is_initialized_ = true ∧
    s1.previous_timestamp_ = m.timestamp_ ∧ calls = [] ∧
    s1.ekf_.F_ = s.ekf_.F_ ∧ s1.ekf_.Q_ = s.ekf_.Q_ ∧ s1.ekf_.H_ = s.ekf_.H_ ∧
    s1.ekf_.R_ = s.ekf_.R_ := by
  obtain ⟨ts, tag, z⟩ := m
  cases tag
  · simp only [FusionEKF.initialize_, bind, Option.bind_eq_some, pure, Option.some.injEq,
      Prod.mk.injEq] at h
    obtain ⟨m0, -, m1, -, x1, -, a0, -, a1, -, hs1, hc⟩ := h
    subst hs1
    exact ⟨rfl, rfl, rfl, rfl, rfl, rfl, hc.symm, rfl, rfl, rfl, rfl⟩
  · simp only [FusionEKF.initialize_, bind, Option.bind_eq_some, pure, Option.some.injEq,
      Prod.mk.injEq] at h
    obtain ⟨rho, -, phi, -, rho_dot, -, x1, -, a0, -, a1, -, hs1, hc⟩ := h
    subst hs1
    exact ⟨rfl, rfl, rfl, rfl, rfl, rfl, hc.symm, rfl, rfl, rfl, rfl⟩

theorem track_frame (c : Collaborators α) (s : FusionEKF α) (m : MeasurementPackage α) :
    (FusionEKF.track c s m).1.R_laser_ = s.R_laser_ ∧
    (FusionEKF.track c s m).1.R_radar_ = s.R_radar_ ∧
    (FusionEKF.track c s m).1.H_laser_ = s.H_laser_ ∧
    (FusionEKF.track c s m).1.Hj_ = s.Hj_ ∧
    (FusionEKF.track c s m).1.is_initialized_ = s.is_initialized_ ∧
    (FusionEKF.track c s m).1.previous_timestamp_ = m.timestamp_ := by
  obtain ⟨ts, tag, z⟩ := m
  by_cases h : (FusionEKF.elapsed c.rounding ts s.previous_timestamp_ : α) ≥ 0.000001
  · cases tag
    · rw [track_laser_predict c s ts z h]; exact ⟨rfl, rfl, rfl, rfl, rfl, rfl⟩
    · rw [track_radar_predict c s ts z h]; exact ⟨rfl, rfl, rfl, rfl, rfl, rfl⟩
  · cases tag
    · rw [track_laser_skip c s ts z h]; exact ⟨rfl, rfl, rfl, rfl, rfl, rfl⟩
    · rw [track_radar_skip c s ts z h]; exact ⟨rfl, rfl, rfl, rfl, rfl, rfl⟩

theorem processMeasurement_frame (c : Collaborators α) (s s1 : FusionEKF α)
    (m : MeasurementPackage α) (calls : List (Call α))
    (h : FusionEKF.ProcessMeasurement c s m = some (s1, calls)) :
    s1.R_laser_ = s.R_laser_ ∧ s1.R_radar_ = s.R_radar_ ∧ s1.H_laser_ = s.H_laser_ ∧
    s1.Hj_ = s.Hj_ := by
  cases hs : s.is_initialized_
  · rw [processMeasurement_first c s m hs] at h
    obtain ⟨h1, h2, h3, h4, -⟩ := initialize_frame c s s1 m calls h
    exact ⟨h1, h2, h3, h4⟩
  · rw [processMeasurement_later c s m hs] at h
    obtain ⟨h1, h2, h3, h4, -⟩ := track_frame c s m
    simp only [Option.some.injEq] at h
    rw [h] at h1 h2 h3 h4
    exact ⟨h1, h2, h3, h4⟩

theorem reachable_sensor_matrices (c : Collaborators α) (ekf0 : KalmanFilter α)
    (memH memHj : Nat → Nat → α) (s : FusionEKF α)
    (hr : Reachable c ekf0 memH memHj s) :
    s.R_laser_ = [[0.0225, 0], [0, 0.0225]] ∧
    s.R_radar_ = [[0.09, 0, 0], [0, 0.0009, 0], [0, 0, 0.09]] ∧
    s.H_laser_ = MatrixXd.alloc 2 4 memH ∧
    s.Hj_ = MatrixXd.alloc 3 4 memHj := by
  induction hr with
  | fresh => exact ⟨rfl, rfl, rfl, rfl⟩
  | step m _ hstep ih =>
    obtain ⟨h1, h2, h3, h4⟩ := processMeasurement_frame c _ _ m _ hstep
    rw [h1, h2, h3, h4]
    exact ih


theorem list_length_four {β : Type} (l : List β) (h : l.length = 4) :
    ∃ a b c d, l = [a, b, c, d] := by
  match l, h with
  | [a, b, c, d], _ => exact ⟨a, b, c, d, rfl⟩

theorem buildF_zero : FusionEKF.buildF (0 : α) =
    [[1, 0, 0, 0], [0, 1, 0, 0], [0, 0, 1, 0], [0, 0, 0, 1]] := rfl

theorem toFloat_zero (r : Rounding α) : r.toFloat 0 = 0 :=
  le_antisymm (r.toFloat_nonpos 0 le_rfl) (r.toFloat_nonneg 0 le_rfl)

theorem toDouble_zero (r : Rounding α) : r.toDouble 0 = 0 :=
  le_antisymm (r.toDouble_nonpos 0 le_rfl) (r.toDouble_nonneg 0 le_rfl)

theorem elapsed_zero (r : Rounding α) (ts : Int) :
    (FusionEKF.elapsed r ts ts : α) = 0 := by
  simp [FusionEKF.elapsed, toFloat_zero, toDouble_zero]

theorem buildQ_zero (r : Rounding α) : FusionEKF.buildQ r (0 : α) =
    [[0, 0, 0, 0], [0, 0, 0, 0], [0, 0, 0, 0], [0, 0, 0, 0]] := by
  simp [FusionEKF.buildQ, toFloat_zero]

/-- The three distinct entries of `Q`, as lines 136-150 compute them. -/
theorem buildQ_shape (r : Rounding α) (dt : α) : FusionEKF.buildQ r dt =
    [[r.toFloat (r.toFloat (r.toFloat (r.toFloat (r.toFloat (dt * dt) * dt) * dt) / 4)
        * r.toFloat 9.0), 0,
      r.toFloat (r.toFloat (r.toFloat (r.toFloat (dt * dt) * dt) / 2) * r.toFloat 9.0), 0],
     [0, r.toFloat (r.toFloat (r.toFloat (r.toFloat (r.toFloat (dt * dt) * dt) * dt) / 4)
        * r.toFloat 9.0), 0,
      r.toFloat (r.toFloat (r.toFloat (r.toFloat (dt * dt) * dt) / 2) * r.toFloat 9.0)],
     [r.toFloat (r.toFloat (r.toFloat (r.toFloat (dt * dt) * dt) / 2) * r.toFloat 9.0), 0,
      r.toFloat (r.toFloat (dt * dt) * r.toFloat 9.0), 0],
     [0, r.toFloat (r.toFloat (r.toFloat (r.toFloat (dt * dt) * dt) / 2) * r.toFloat 9.0), 0,
      r.toFloat (r.toFloat (dt * dt) * r.toFloat 9.0)]] := rfl

theorem buildQ_symmetric (r : Rounding α) (dt : α) :
    MatrixXd.transpose (FusionEKF.buildQ r dt) = FusionEKF.buildQ r dt := by
  rw [buildQ_shape]
  simp [MatrixXd.transpose, MatrixXd.col, List.range_succ]

/-- Without rounding, `Q` is the closed form. -/
theorem buildQ_exact (dt : α) : FusionEKF.buildQ Rounding.exact dt =
    [[9 * dt ^ 4 / 4, 0, 9 * dt ^ 3 / 2, 0],
     [0, 9 * dt ^ 4 / 4, 0, 9 * dt ^ 3 / 2],
     [9 * dt ^ 3 / 2, 0, 9 * dt ^ 2, 0],
     [0, 9 * dt ^ 3 / 2, 0, 9 * dt ^ 2]] := by
  have h9 : (9.0 : α) = 9 := by norm_num
  simp only [FusionEKF.buildQ, Rounding.exact, h9]
  have e1 : dt * dt * dt * dt / 4 * 9 = 9 * dt ^ 4 / 4 := by ring
  have e2 : dt * dt * dt / 2 * 9 = 9 * dt ^ 3 / 2 := by ring
  have e3 : dt * dt * 9 = 9 * dt ^ 2 := by ring
  rw [e1, e2, e3]

theorem predict_identity (k : KalmanFilter α)
    (hF : k.F_ = [[1, 0, 0, 0], [0, 1, 0, 0], [0, 0, 1, 0], [0, 0, 0, 1]])
    (hQ : k.Q_ = [[0, 0, 0, 0], [0, 0, 0, 0], [0, 0, 0, 0], [0, 0, 0, 0]])
    (hx : k.x_.length = 4) (hP : k.P_.length = 4) (hrow : ∀ r ∈ k.P_, r.length = 4) :
    (KalmanFilter.Predict k).x_ = k.x_ ∧ (KalmanFilter.Predict k).P_ = k.P_ := by
  obtain ⟨x, P, F, Q, H, R⟩ := k
  simp only at hF hQ hx hP hrow
  subst hF hQ
  obtain ⟨a, b, c, d, rfl⟩ := list_length_four x hx
  obtain ⟨r0, r1, r2, r3, rfl⟩ := list_length_four P hP
  obtain ⟨a0, a1, a2, a3, rfl⟩ := list_length_four r0 (hrow _ (by simp))
  obtain ⟨b0, b1, b2, b3, rfl⟩ := list_length_four r1 (hrow _ (by simp))
  obtain ⟨c0, c1, c2, c3, rfl⟩ := list_length_four r2 (hrow _ (by simp))
  obtain ⟨d0, d1, d2, d3, rfl⟩ := list_length_four r3 (hrow _ (by simp))
  constructor
  · simp [KalmanFilter.Predict, MatrixXd.mulVec, dot]
  · simp [KalmanFilter.Predict, MatrixXd.mul, MatrixXd.add, MatrixXd.transpose, MatrixXd.col,
      dot, List.range_succ]


/-- C6: in the Tracking state of an orchestrator obtained from the constructor,
`ProcessMeasurement` succeeds and, after the optional `Predict()` (which leaves
the filter object `k0`), dispatches on the tag.  RADAR: it calls
`CalculateJacobian` on `k0.x_`, then `UpdateEKF` with the raw measurement on
`k0` with `H_` set to that Jacobian and `R_` set to
`diag(0.09, 0.0009, 0.09)`, once, and never `Update`.  LASER: it calls `Update`
with the raw measurement on `k0` with `H_` set to the member `H_laser_` and
`R_` set to `diag(0.0225, 0.0225)`, once, and never `UpdateEKF` or
`CalculateJacobian`. -/
theorem tracking_dispatch (c : Collaborators α) (ekf0 : KalmanFilter α)
    (memH memHj : Nat → Nat → α) (s : FusionEKF α) (m : MeasurementPackage α)
    (hr : Reachable c ekf0 memH memHj s) (hs : s.is_initialized_ = true) :
    ∃ s1 calls pre k0, FusionEKF.ProcessMeasurement c s m = some (s1, calls) ∧
      ((¬ (FusionEKF.elapsed c.rounding m.timestamp_ s.previous_timestamp_ : α) ≥ 0.000001 ∧
          pre = [] ∧ k0 = rebuilt c s m) ∨
        ((FusionEKF.elapsed c.rounding m.timestamp_ s.previous_timestamp_ : α) ≥ 0.000001 ∧
          pre = [Call.Predict (rebuilt c s m)] ∧ k0 = c.Predict (rebuilt c s m))) ∧
      (m.sensor_type_ = SensorType.RADAR →
        calls = pre ++ [Call.CalculateJacobian k0,
          Call.UpdateEKF { k0 with
            H_ := c.CalculateJacobian k0.x_
            R_ := [[0.09, 0, 0], [0, 0.0009, 0], [0, 0, 0.09]] } m.raw_measurements_] ∧
        s1.ekf_ = c.UpdateEKF { k0 with
            H_ := c.CalculateJacobian k0.x_
            R_ := [[0.09, 0, 0], [0, 0.0009, 0], [0, 0, 0.09]] } m.raw_measurements_ ∧
        (calls.map Call.kind).count CallKind.UpdateEKF = 1 ∧
        (calls.map Call.kind).count CallKind.CalculateJacobian = 1 ∧
        CallKind.Update ∉ calls.map Call.kind) ∧
      (m.sensor_type_ = SensorType.LASER →
        calls = pre ++ [Call.Update { k0 with
            H_ := s.H_laser_
            R_ := [[0.0225, 0], [0, 0.0225]] } m.raw_measurements_] ∧
        s1.ekf_ = c.Update { k0 with
            H_ := s.H_laser_
            R_ := [[0.0225, 0], [0, 0.0225]] } m.raw_measurements_ ∧
        (calls.map Call.kind).count CallKind.Update = 1 ∧
        CallKind.UpdateEKF ∉ calls.map Call.kind ∧
        CallKind.CalculateJacobian ∉ calls.map Call.kind) := by
  obtain ⟨hRl, hRr, -, -⟩ := reachable_sensor_matrices c ekf0 memH memHj s hr
  obtain ⟨ts, tag, z⟩ := m
  rw [processMeasurement_later c s _ hs]
  by_cases h : (FusionEKF.elapsed c.rounding ts s.previous_timestamp_ : α) ≥ 0.000001
  · cases tag
    · rw [track_laser_predict c s ts z h, hRl]
      exact ⟨_, _, _, _, rfl, Or.inr ⟨h, rfl, rfl⟩, (fun hc => by cases hc),
        fun _ => ⟨rfl, rfl, by simp [Call.kind], by simp [Call.kind], by simp [Call.kind]⟩⟩
    · rw [track_radar_predict c s ts z h, hRr]
      exact ⟨_, _, _, _, rfl, Or.inr ⟨h, rfl, rfl⟩,
        (fun _ => ⟨rfl, rfl, by simp [Call.kind], by simp [Call.kind], by simp [Call.kind]⟩),
        fun hc => by cases hc⟩
  · cases tag
    · rw [track_laser_skip c s ts z h, hRl]
      exact ⟨_, _, _, _, rfl, Or.inl ⟨h, rfl, rfl⟩, (fun hc => by cases hc),
        fun _ => ⟨rfl, rfl, by simp [Call.kind], by simp [Call.kind], by simp [Call.kind]⟩⟩
    · rw [track_radar_skip c s ts z h, hRr]
      exact ⟨_, _, _, _, rfl, Or.inl ⟨h, rfl, rfl⟩,
        (fun _ => ⟨rfl, rfl, by simp [Call.kind], by simp [Call.kind], by simp [Call.kind]⟩),
        fun hc => by cases hc⟩

/-- Witness for C6: a RADAR record one second after the first call. -/
theorem tracking_dispatch_witness :
    Reachable idleQ KalmanFilter.empty zeroMem zeroMem trackingQ ∧
    trackingQ.is_initialized_ = true ∧
    ∃ s1 calls pre k0,
      FusionEKF.ProcessMeasurement idleQ trackingQ ⟨1000000, .RADAR, [5, 0, 1]⟩
        = some (s1, calls) ∧
      calls = pre ++ [Call.CalculateJacobian k0,
          Call.UpdateEKF { k0 with
            H_ := idleQ.CalculateJacobian k0.x_
            R_ := [[0.09, 0, 0], [0, 0.0009, 0], [0, 0, 0.09]] } [5, 0, 1]] := by
  obtain ⟨s1, calls, pre, k0, h1, -, hR, -⟩ :=
    tracking_dispatch idleQ KalmanFilter.empty zeroMem zeroMem trackingQ
      ⟨1000000, .RADAR, [5, 0, 1]⟩ trackingQ_reachable rfl
  exact ⟨trackingQ_reachable, rfl, s1, calls, pre, k0, h1, (hR rfl).1⟩

/-- C7 (what the code does): the constructor allocates `H_laser_` as a 2x4
matrix and never assigns its entries, and no later call assigns them, so the
`H_` that a LASER update is called with is whatever the allocated storage
`memH` held, not the position-selecting matrix. -/
theorem laser_update_H_is_unassigned_storage (c : Collaborators α) (ekf0 : KalmanFilter α)
    (memH memHj : Nat → Nat → α) (s : FusionEKF α) (ts : Int) (z : VectorXd α)
    (hr : Reachable c ekf0 memH memHj s) (hs : s.is_initialized_ = true) :
    ∃ s1 calls k, FusionEKF.ProcessMeasurement c s ⟨ts, .LASER, z⟩ = some (s1, calls) ∧
      calls.getLast? = some (Call.Update k z) ∧
      k.H_ = [[memH 0 0, memH 0 1, memH 0 2, memH 0 3],
              [memH 1 0, memH 1 1, memH 1 2, memH 1 3]] := by
  obtain ⟨-, -, hH, -⟩ := reachable_sensor_matrices c ekf0 memH memHj s hr
  have hH2 : s.H_laser_ = [[memH 0 0, memH 0 1, memH 0 2, memH 0 3],
              [memH 1 0, memH 1 1, memH 1 2, memH 1 3]] := by
    rw [hH]; rfl
  rw [processMeasurement_later c s _ hs]
  by_cases h : (FusionEKF.elapsed c.rounding ts s.previous_timestamp_ : α) ≥ 0.000001
  · rw [track_laser_predict c s ts z h]
    exact ⟨_, _, _, rfl, rfl, hH2⟩
  · rw [track_laser_skip c s ts z h]
    exact ⟨_, _, _, rfl, rfl, hH2⟩

/-- The failing run for C7: with storage that held zeros, the second LASER
record is passed to `Update` with `H_` the zero matrix, which is not
`[[1,0,0,0],[0,1,0,0]]` and maps the state `[3, 4, 0, 0]` to `[0, 0]`. -/
theorem laser_update_H_is_unassigned_storage_witness :
    Reachable idleQ KalmanFilter.empty zeroMem zeroMem trackingQ ∧
    trackingQ.is_initialized_ = true ∧
    ∃ s1 calls k,
      FusionEKF.ProcessMeasurement idleQ trackingQ ⟨1, .LASER, [3, 4]⟩ = some (s1, calls) ∧
      calls.getLast? = some (Call.Update k [3, 4]) ∧
      k.H_ = [[0, 0, 0, 0], [0, 0, 0, 0]] ∧
      k.H_ ≠ [[1, 0, 0, 0], [0, 1, 0, 0]] ∧
      MatrixXd.mulVec k.H_ [3, 4, 0, 0] = [0, 0] := by
  obtain ⟨s1, calls, k, h1, h2, h3⟩ :=
    laser_update_H_is_unassigned_storage idleQ KalmanFilter.empty zeroMem zeroMem trackingQ
      1 [3, 4] trackingQ_reachable rfl
  have h4 : k.H_ = [[0, 0, 0, 0], [0, 0, 0, 0]] := by rw [h3]; rfl
  refine ⟨trackingQ_reachable, rfl, s1, calls, k, h1, h2, h4, ?_, ?_⟩
  · rw [h4]; simp
  · rw [h4]; simp [MatrixXd.mulVec, dot]

theorem track_first_call (c : Collaborators α) (s : FusionEKF α) (m : MeasurementPackage α) :
    ∃ s1 call rest, FusionEKF.track c s m = (s1, call :: rest) ∧
      s1.previous_timestamp_ = m.timestamp_ ∧
      call.ekf.F_ = (rebuilt c s m).F_ ∧ call.ekf.Q_ = (rebuilt c s m).Q_ ∧
      call.ekf.x_ = s.ekf_.x_ ∧ call.ekf.P_ = s.ekf_.P_ := by
  obtain ⟨ts, tag, z⟩ := m
  by_cases h : (FusionEKF.elapsed c.rounding ts s.previous_timestamp_ : α) ≥ 0.000001
  · cases tag
    · rw [track_laser_predict c s ts z h]; exact ⟨_, _, _, rfl, rfl, rfl, rfl, rfl, rfl⟩
    · rw [track_radar_predict c s ts z h]; exact ⟨_, _, _, rfl, rfl, rfl, rfl, rfl, rfl⟩
  · cases tag
    · rw [track_laser_skip c s ts z h]; exact ⟨_, _, _, rfl, rfl, rfl, rfl, rfl, rfl⟩
    · rw [track_radar_skip c s ts z h]; exact ⟨_, _, _, rfl, rfl, rfl, rfl, rfl, rfl⟩

/-- Without rounding, the elapsed time is the exact quotient. -/
theorem elapsed_exact (ts prev : Int) :
    (FusionEKF.elapsed Rounding.exact ts prev : α) = ((ts - prev : Int) : α) / 1000000 := by
  have h : (1000000.0 : α) = 1000000 := by norm_num
  simp only [FusionEKF.elapsed, Rounding.exact, h]

/-- C8 (as the code has it): in the Tracking state, for every record,
`ProcessMeasurement` succeeds, stores the record timestamp as the reference
timestamp (whatever the sign of `dt`), and the filter object that its first
call acts on carries `F_ = [[1,0,dt,0],[0,1,0,dt],[0,0,1,0],[0,0,0,1]]`, where
`dt` is the `float` obtained from `(timestamp - reference timestamp) / 1000000`
by converting the difference to `float`, dividing in `double` and narrowing the
quotient to `float`. -/
theorem tracking_rebuilds_F_rounded (c : Collaborators α) (s : FusionEKF α)
    (m : MeasurementPackage α) (hs : s.is_initialized_ = true) :
    ∃ s1 call rest dt, FusionEKF.ProcessMeasurement c s m = some (s1, call :: rest) ∧
      dt = c.rounding.toFloat (c.rounding.toDouble
            (c.rounding.toFloat ((m.timestamp_ - s.previous_timestamp_ : Int) : α)
              / 1000000)) ∧
      s1.previous_timestamp_ = m.timestamp_ ∧
      call.ekf.F_ = [[1, 0, dt, 0], [0, 1, 0, dt], [0, 0, 1, 0], [0, 0, 0, 1]] := by
  obtain ⟨s1, call, rest, h1, h2, h3, -⟩ := track_first_call c s m
  rw [processMeasurement_later c s _ hs, h1]
  refine ⟨s1, call, rest, _, rfl, rfl, h2, ?_⟩
  rw [h3]
  have h : (1000000.0 : α) = 1000000 := by norm_num
  simp only [rebuilt, FusionEKF.buildF, FusionEKF.elapsed, h]

theorem elapsed_ieee_50ms :
    FusionEKF.elapsed Rounding.ieee 50000 0 = 13421773 / 268435456 := by
  have e1 : (((50000 : Int) - 0 : Int) : ℚ) = 50000 := by norm_num
  show binary32 (binary64 (binary32 (((50000 : Int) - 0 : Int) : ℚ) / 1000000.0)) = _
  rw [e1, binary32_50000, binary64_50000_quotient, binary32_50000_quotient]

theorem elapsed_ieee_1us :
    FusionEKF.elapsed Rounding.ieee 1 0 = 8796093 / 8796093022208 := by
  have e1 : (((1 : Int) - 0 : Int) : ℚ) = 1 := by norm_num
  show binary32 (binary64 (binary32 (((1 : Int) - 0 : Int) : ℚ) / 1000000.0)) = _
  rw [e1, binary32_one, binary64_micro, binary32_micro]

theorem elapsed_ieee_2us :
    FusionEKF.elapsed Rounding.ieee 2 0 = 8796093 / 4398046511104 := by
  have e1 : (((2 : Int) - 0 : Int) : ℚ) = 2 := by norm_num
  show binary32 (binary64 (binary32 (((2 : Int) - 0 : Int) : ℚ) / 1000000.0)) = _
  rw [e1, binary32_two, binary64_two_micro, binary32_two_micro]

theorem buildQ_ieee_50ms :
    FusionEKF.buildQ Rounding.ieee (13421773 / 268435456) =
      [[15461883 / 1099511627776, 0, 9663677 / 17179869184, 0],
       [0, 15461883 / 1099511627776, 0, 9663677 / 17179869184],
       [9663677 / 17179869184, 0, 3019899 / 134217728, 0],
       [0, 9663677 / 17179869184, 0, 3019899 / 134217728]] := by
  rw [buildQ_shape]
  show [[binary32 (binary32 (binary32 (binary32 (binary32
            (13421773 / 268435456 * (13421773 / 268435456)) * (13421773 / 268435456))
            * (13421773 / 268435456)) / 4) * binary32 9.0), 0,
          binary32 (binary32 (binary32 (binary32
            (13421773 / 268435456 * (13421773 / 268435456)) * (13421773 / 268435456)) / 2)
            * binary32 9.0), 0],
        [0, binary32 (binary32 (binary32 (binary32 (binary32
            (13421773 / 268435456 * (13421773 / 268435456)) * (13421773 / 268435456))
            * (13421773 / 268435456)) / 4) * binary32 9.0), 0,
          binary32 (binary32 (binary32 (binary32
            (13421773 / 268435456 * (13421773 / 268435456)) * (13421773 / 268435456)) / 2)
            * binary32 9.0)],
        [binary32 (binary32 (binary32 (binary32
            (13421773 / 268435456 * (13421773 / 268435456)) * (13421773 / 268435456)) / 2)
            * binary32 9.0), 0,
          binary32 (binary32 (13421773 / 268435456 * (13421773 / 268435456))
            * binary32 9.0), 0],
        [0, binary32 (binary32 (binary32 (binary32
            (13421773 / 268435456 * (13421773 / 268435456)) * (13421773 / 268435456)) / 2)
            * binary32 9.0), 0,
          binary32 (binary32 (13421773 / 268435456 * (13421773 / 268435456))
            * binary32 9.0)]] = _
  rw [binary32_nine, binary32_dt_2, binary32_dt_3, binary32_dt_4, binary32_dt_4_4,
    binary32_dt_3_2, binary32_q_pos, binary32_q_cross, binary32_q_vel]

/-- The run that the IEEE examples use: on `trackingQ`, the first call of
`ProcessMeasurement` for a LASER record 50 ms after the reference timestamp
acts on the rebuilt filter object. -/
theorem ieee_50ms_first_call :
    ∃ s1 call rest,
      FusionEKF.ProcessMeasurement ieeeQ trackingQ ⟨50000, .LASER, [3, 4]⟩
        = some (s1, call :: rest) ∧
      call.ekf.F_ = FusionEKF.buildF (13421773 / 268435456) ∧
      call.ekf.Q_ = FusionEKF.buildQ Rounding.ieee (13421773 / 268435456) := by
  obtain ⟨s1, call, rest, h1, -, h3, h4, -⟩ :=
    track_first_call ieeeQ trackingQ ⟨50000, .LASER, [3, 4]⟩
  rw [processMeasurement_later ieeeQ trackingQ _ rfl, h1]
  refine ⟨s1, call, rest, rfl, ?_, ?_⟩
  · rw [h3]
    show FusionEKF.buildF (FusionEKF.elapsed Rounding.ieee 50000 0) = _
    rw [elapsed_ieee_50ms]
  · rw [h4]
    show FusionEKF.buildQ Rounding.ieee (FusionEKF.elapsed Rounding.ieee 50000 0) = _
    rw [elapsed_ieee_50ms]

/-- Witness for C8 (as the code has it): with IEEE rounding, a record 50 ms
after the reference timestamp gives `dt = 13421773 / 2^28`. -/
theorem tracking_rebuilds_F_rounded_witness :
    trackingQ.is_initialized_ = true ∧
    ∃ (s1 : FusionEKF ℚ) (call : Call ℚ) (rest : List (Call ℚ)) (dt : ℚ),
      FusionEKF.ProcessMeasurement ieeeQ trackingQ ⟨50000, .LASER, [3, 4]⟩
        = some (s1, call :: rest) ∧
      dt = 13421773 / 268435456 ∧
      s1.previous_timestamp_ = 50000 ∧
      call.ekf.F_ = [[1, 0, dt, 0], [0, 1, 0, dt], [0, 0, 1, 0], [0, 0, 0, 1]] := by
  obtain ⟨s1, call, rest, dt, h1, h2, h3, h4⟩ :=
    tracking_rebuilds_F_rounded ieeeQ trackingQ ⟨50000, .LASER, [3, 4]⟩ rfl
  refine ⟨rfl, s1, call, rest, dt, h1, ?_, h3, h4⟩
  rw [h2]
  have h := elapsed_ieee_50ms
  have hm : (1000000.0 : ℚ) = 1000000 := by norm_num
  simp only [FusionEKF.elapsed, hm] at h
  exact h

/-- C8 as stated fails: with IEEE rounding, for a record 50000 microseconds
after the reference timestamp the entry `F_(0,2)` is `13421773 / 2^28`, which
is not `(50000 - 0) / 1000000`. -/
theorem tracking_F_is_not_exact_quotient :
    (∃ s1 call rest,
      FusionEKF.ProcessMeasurement ieeeQ trackingQ ⟨50000, .LASER, [3, 4]⟩
        = some (s1, call :: rest) ∧
      call.ekf.F_ = [[1, 0, 13421773 / 268435456, 0], [0, 1, 0, 13421773 / 268435456],
                     [0, 0, 1, 0], [0, 0, 0, 1]]) ∧
    (13421773 / 268435456 : ℚ) ≠
      (((50000 : Int) - trackingQ.previous_timestamp_ : Int) : ℚ) / 1000000 := by
  constructor
  · obtain ⟨s1, call, rest, h1, h2, -⟩ := ieee_50ms_first_call
    exact ⟨s1, call, rest, h1, h2⟩
  · norm_num [trackingQ]

/-- C9 (as the code has it): in the Tracking state, for every record, the
filter object that the first call of `ProcessMeasurement` acts on carries
`Q_ = [[a, 0, b, 0], [0, a, 0, b], [b, 0, d, 0], [0, b, 0, d]]`, where `a`, `b`,
`d` are `9·dt⁴/4`, `9·dt³/2`, `9·dt²` as lines 136-150 evaluate them in `float`
(`fl` after every product and quotient); this matrix equals its transpose, and
its entries between the x pair (rows/columns 0, 2) and the y pair
(rows/columns 1, 3) are 0. -/
theorem tracking_rebuilds_Q_rounded (c : Collaborators α) (s : FusionEKF α)
    (m : MeasurementPackage α) (hs : s.is_initialized_ = true) :
    ∃ s1 call rest dt dt_2 dt_3 dt_4 a b d,
      FusionEKF.ProcessMeasurement c s m = some (s1, call :: rest) ∧
      dt = c.rounding.toFloat (c.rounding.toDouble
            (c.rounding.toFloat ((m.timestamp_ - s.previous_timestamp_ : Int) : α)
              / 1000000)) ∧
      dt_2 = c.rounding.toFloat (dt * dt) ∧
      dt_3 = c.rounding.toFloat (dt_2 * dt) ∧
      dt_4 = c.rounding.toFloat (dt_3 * dt) ∧
      a = c.rounding.toFloat (c.rounding.toFloat (dt_4 / 4) * c.rounding.toFloat 9) ∧
      b = c.rounding.toFloat (c.rounding.toFloat (dt_3 / 2) * c.rounding.toFloat 9) ∧
      d = c.rounding.toFloat (dt_2 * c.rounding.toFloat 9) ∧
      call.ekf.Q_ = [[a, 0, b, 0], [0, a, 0, b], [b, 0, d, 0], [0, b, 0, d]] ∧
      MatrixXd.transpose call.ekf.Q_ = call.ekf.Q_ := by
  obtain ⟨s1, call, rest, h1, -, -, h3, -⟩ := track_first_call c s m
  rw [processMeasurement_later c s _ hs, h1]
  have hQ : call.ekf.Q_ = FusionEKF.buildQ c.rounding
      (FusionEKF.elapsed c.rounding m.timestamp_ s.previous_timestamp_) := by
    rw [h3]
    rfl
  have h9 : (9.0 : α) = 9 := by norm_num
  have hm : (1000000.0 : α) = 1000000 := by norm_num
  refine ⟨s1, call, rest, _, _, _, _, _, _, _, rfl, rfl, rfl, rfl, rfl, rfl, rfl, rfl, ?_, ?_⟩
  · rw [hQ, buildQ_shape, h9]
    simp only [FusionEKF.elapsed, hm]
  · rw [hQ]
    exact buildQ_symmetric _ _

/-- Witness for C9 (as the code has it): with IEEE rounding, a record 50 ms after
the reference timestamp gives `dt = 13421773 / 2^28`, `a = 15461883 / 2^40`,
`b = 9663677 / 2^34`, `d = 3019899 / 2^27`. -/
theorem tracking_rebuilds_Q_rounded_witness :
    trackingQ.is_initialized_ = true ∧
    ∃ (s1 : FusionEKF ℚ) (call : Call ℚ) (rest : List (Call ℚ)) (dt a b d : ℚ),
      FusionEKF.ProcessMeasurement ieeeQ trackingQ ⟨50000, .LASER, [3, 4]⟩
        = some (s1, call :: rest) ∧
      dt = 13421773 / 268435456 ∧
      a = 15461883 / 1099511627776 ∧ b = 9663677 / 17179869184 ∧
      d = 3019899 / 134217728 ∧
      call.ekf.Q_ = [[a, 0, b, 0], [0, a, 0, b], [b, 0, d, 0], [0, b, 0, d]] ∧
      MatrixXd.transpose call.ekf.Q_ = call.ekf.Q_ := by
  obtain ⟨s1, call, rest, dt, dt_2, dt_3, dt_4, a, b, d, h1, hdt, h2, h3, h4, ha, hb, hd,
      hQ, hT⟩ :=
    tracking_rebuilds_Q_rounded ieeeQ trackingQ ⟨50000, .LASER, [3, 4]⟩ rfl
  have e0 : dt = 13421773 / 268435456 := by
    rw [hdt]
    have h := elapsed_ieee_50ms
    have hm : (1000000.0 : ℚ) = 1000000 := by norm_num
    simp only [FusionEKF.elapsed, hm] at h
    exact h
  have e2 : dt_2 = 10737419 / 4294967296 := by
    rw [h2, e0]
    exact binary32_dt_2
  have e3 : dt_3 = 8589935 / 68719476736 := by
    rw [h3, e2, e0]
    exact binary32_dt_3
  have e4 : dt_4 = 1717987 / 274877906944 := by
    rw [h4, e3, e0]
    exact binary32_dt_4
  have ea : a = 15461883 / 1099511627776 := by
    rw [ha, e4]
    show binary32 (binary32 (1717987 / 274877906944 / 4) * binary32 9) = _
    rw [binary32_dt_4_4, binary32_nine_numeral, binary32_q_pos]
  have eb : b = 9663677 / 17179869184 := by
    rw [hb, e3]
    show binary32 (binary32 (8589935 / 68719476736 / 2) * binary32 9) = _
    rw [binary32_dt_3_2, binary32_nine_numeral, binary32_q_cross]
  have ed : d = 3019899 / 134217728 := by
    rw [hd, e2]
    show binary32 (10737419 / 4294967296 * binary32 9) = _
    rw [binary32_nine_numeral, binary32_q_vel]
  exact ⟨rfl, s1, call, rest, dt, a, b, d, h1, e0, ea, eb, ed, hQ, hT⟩

/-- C9 as stated fails: with IEEE rounding, for a record 50 ms after the
reference timestamp `Q_` has the entries `15461883 / 2^40`, `9663677 / 2^34`
and `3019899 / 2^27`; the first is not `9·dt⁴/4`, neither for the exact
`dt = 1/20` nor for the `float` `dt = 13421773 / 2^28` that the code holds, and
likewise the other two. -/
theorem tracking_Q_is_not_closed_form :
    (∃ s1 call rest,
      FusionEKF.ProcessMeasurement ieeeQ trackingQ ⟨50000, .LASER, [3, 4]⟩
        = some (s1, call :: rest) ∧
      call.ekf.Q_ =
        [[15461883 / 1099511627776, 0, 9663677 / 17179869184, 0],
         [0, 15461883 / 1099511627776, 0, 9663677 / 17179869184],
         [9663677 / 17179869184, 0, 3019899 / 134217728, 0],
         [0, 9663677 / 17179869184, 0, 3019899 / 134217728]]) ∧
    (15461883 / 1099511627776 : ℚ) ≠ 9 * (1 / 20) ^ 4 / 4 ∧
    (15461883 / 1099511627776 : ℚ) ≠ 9 * (13421773 / 268435456) ^ 4 / 4 ∧
    (9663677 / 17179869184 : ℚ) ≠ 9 * (13421773 / 268435456) ^ 3 / 2 ∧
    (3019899 / 134217728 : ℚ) ≠ 9 * (13421773 / 268435456) ^ 2 := by
  refine ⟨?_, by norm_num, by norm_num, by norm_num, by norm_num⟩
  obtain ⟨s1, call, rest, h1, -, h3⟩ := ieee_50ms_first_call
  exact ⟨s1, call, rest, h1, by rw [h3, buildQ_ieee_50ms]⟩

/-- C10: in the Tracking state, for a record with the reference timestamp,
`dt = 0` and the filter object that the first call acts on carries `F_` the
4x4 identity and `Q_` the 4x4 zero matrix; and for every filter object with
these `F_` and `Q_`, a state vector of length 4 and a 4x4 covariance, the
prediction `x ← F·x`, `P ← F·P·Fᵗ + Q` returns the same state vector and
covariance. -/
theorem zero_dt_prediction_is_identity (c : Collaborators α) (s : FusionEKF α)
    (m : MeasurementPackage α) (hs : s.is_initialized_ = true)
    (ht : m.timestamp_ = s.previous_timestamp_) :
    (FusionEKF.elapsed c.rounding m.timestamp_ s.previous_timestamp_ : α) = 0 ∧
    (∃ s1 call rest, FusionEKF.ProcessMeasurement c s m = some (s1, call :: rest) ∧
      call.ekf.F_ = [[1, 0, 0, 0], [0, 1, 0, 0], [0, 0, 1, 0], [0, 0, 0, 1]] ∧
      call.ekf.Q_ = [[0, 0, 0, 0], [0, 0, 0, 0], [0, 0, 0, 0], [0, 0, 0, 0]]) ∧
    ∀ k : KalmanFilter α,
      k.F_ = FusionEKF.buildF
        (FusionEKF.elapsed c.rounding m.timestamp_ s.previous_timestamp_) →
      k.Q_ = FusionEKF.buildQ c.rounding
        (FusionEKF.elapsed c.rounding m.timestamp_ s.previous_timestamp_) →
      k.x_.length = 4 → k.P_.length = 4 → (∀ r ∈ k.P_, r.length = 4) →
      (KalmanFilter.Predict k).x_ = k.x_ ∧ (KalmanFilter.Predict k).P_ = k.P_ := by
  have hdt : (FusionEKF.elapsed c.rounding m.timestamp_ s.previous_timestamp_ : α) = 0 := by
    rw [ht]
    exact elapsed_zero c.rounding _
  refine ⟨hdt, ?_, ?_⟩
  · obtain ⟨s1, call, rest, h1, -, h3, h4, -⟩ := track_first_call c s m
    rw [processMeasurement_later c s _ hs, h1]
    refine ⟨s1, call, rest, rfl, ?_, ?_⟩
    · rw [h3]; simp only [rebuilt]; rw [hdt, buildF_zero]
    · rw [h4]; simp only [rebuilt]; rw [hdt, buildQ_zero]
  · intro k hF hQ hx hP hrow
    rw [hdt, buildF_zero] at hF
    rw [hdt, buildQ_zero] at hQ
    exact predict_identity k hF hQ hx hP hrow

/-- Witness for C10: a second record at the reference timestamp; the
prediction applied to the filter object with the rebuilt matrices keeps
`x = [3, 4, 0, 0]` and `P = diag(1, 1, 1000, 1000)`. -/
theorem zero_dt_prediction_is_identity_witness :
    trackingQ.is_initialized_ = true ∧ (0 : Int) = trackingQ.previous_timestamp_ ∧
    (KalmanFilter.Predict (rebuilt idleQ trackingQ ⟨0, .LASER, [3, 4]⟩)).x_ = [3, 4, 0, 0] ∧
    (KalmanFilter.Predict (rebuilt idleQ trackingQ ⟨0, .LASER, [3, 4]⟩)).P_ =
      [[1, 0, 0, 0], [0, 1, 0, 0], [0, 0, 1000, 0], [0, 0, 0, 1000]] := by
  have h := (zero_dt_prediction_is_identity idleQ trackingQ ⟨0, .LASER, [3, 4]⟩ rfl rfl).2.2
    (rebuilt idleQ trackingQ ⟨0, .LASER, [3, 4]⟩) rfl rfl rfl rfl (by
      intro r hr
      simp [rebuilt, trackingQ] at hr
      rcases hr with rfl | rfl | rfl | rfl <;> rfl)
  exact ⟨rfl, rfl, h.1, h.2⟩

end Tracking


section WellFormed

variable {α : Type} [LinearOrderedField α]

theorem initialize_wellformed (c : Collaborators α) (s : FusionEKF α)
    (m : MeasurementPackage α)
    (hlen : m.raw_measurements_.length = m.sensor_type_.expectedLength) :
    ∃ px py : α,
      FusionEKF.initialize_ c s m =
        some ({ s with
                  ekf_ := { s.ekf_ with
                    x_ := if |px| < (0.0001 : α) ∧ |py| < (0.0001 : α)
                          then [0.0001, 0.0001, 0, 0] else [px, py, 0, 0]
                    P_ := [[1, 0, 0, 0], [0, 1, 0, 0], [0, 0, 1000, 0], [0, 0, 0, 1000]] }
                  previous_timestamp_ := m.timestamp_
                  is_initialized_ := true }, []) := by
  obtain ⟨ts, tag, z⟩ := m
  cases tag
  · obtain ⟨x, y, rfl⟩ := List.length_eq_two.mp hlen
    exact ⟨x, y, initialize_laser c s ts x y⟩
  · obtain ⟨rho, phi, rho_dot, rfl⟩ := List.length_eq_three.mp hlen
    exact ⟨rho * c.cos phi, rho * c.sin phi, initialize_radar c s ts rho phi rho_dot⟩

theorem initialize_ignores_tail (c : Collaborators α) (s : FusionEKF α)
    (m : MeasurementPackage α) (extra : List α)
    (hlen : m.raw_measurements_.length = m.sensor_type_.expectedLength) :
    FusionEKF.initialize_ c s { m with raw_measurements_ := m.raw_measurements_ ++ extra } =
      FusionEKF.initialize_ c s m := by
  obtain ⟨ts, tag, z⟩ := m
  cases tag
  · obtain ⟨x, y, rfl⟩ := List.length_eq_two.mp hlen
    simp [FusionEKF.initialize_]
  · obtain ⟨rho, phi, rho_dot, rfl⟩ := List.length_eq_three.mp hlen
    simp [FusionEKF.initialize_]

theorem initialize_short_laser (c : Collaborators α) (s : FusionEKF α) (ts : Int) (x : α) :
    FusionEKF.initialize_ c s ⟨ts, .LASER, [x]⟩ = none := by
  simp [FusionEKF.initialize_]

theorem initialize_short_radar (c : Collaborators α) (s : FusionEKF α) (ts : Int)
    (rho phi : α) :
    FusionEKF.initialize_ c s ⟨ts, .RADAR, [rho, phi]⟩ = none := by
  simp [FusionEKF.initialize_]

/-- C11: the first `ProcessMeasurement` call on an orchestrator that has not
been initialized (in particular a freshly constructed one), with a record whose
raw vector has the length of its tag, succeeds with an empty call log (no
`Predict`, `Update`, `UpdateEKF` or `CalculateJacobian`), stores the record
timestamp as the reference timestamp, sets `is_initialized_`, and leaves `F_`,
`Q_`, `H_`, `R_` of the filter and the members `R_laser_`, `R_radar_`,
`H_laser_`, `Hj_` as they were. -/
theorem first_call_frame (c : Collaborators α) (s : FusionEKF α)
    (m : MeasurementPackage α) (hs : s.is_initialized_ = false)
    (hlen : m.raw_measurements_.length = m.sensor_type_.expectedLength) :
    ∃ s1, FusionEKF.ProcessMeasurement c s m = some (s1, []) ∧
      s1.previous_timestamp_ = m.timestamp_ ∧ s1.is_initialized_ = true ∧
      s1.ekf_.F_ = s.ekf_.F_ ∧ s1.ekf_.Q_ = s.ekf_.Q_ ∧
      s1.ekf_.H_ = s.ekf_.H_ ∧ s1.ekf_.R_ = s.ekf_.R_ ∧
      s1.R_laser_ = s.R_laser_ ∧ s1.R_radar_ = s.R_radar_ ∧
      s1.H_laser_ = s.H_laser_ ∧ s1.Hj_ = s.Hj_ := by
  obtain ⟨px, py, h⟩ := initialize_wellformed c s m hlen
  rw [processMeasurement_first c s m hs, h]
  exact ⟨_, rfl, rfl, rfl, rfl, rfl, rfl, rfl, rfl, rfl, rfl, rfl⟩

/-- Witness for C11: a LASER record `[3, 4]` with timestamp 7 on a freshly
constructed orchestrator. -/
theorem first_call_frame_witness :
    freshQ.is_initialized_ = false ∧
    ([3, 4] : List ℚ).length = SensorType.LASER.expectedLength ∧
    ∃ s1, FusionEKF.ProcessMeasurement idleQ freshQ ⟨7, .LASER, [3, 4]⟩ = some (s1, []) ∧
      s1.previous_timestamp_ = 7 ∧ s1.is_initialized_ = true ∧
      s1.ekf_.F_ = [] ∧ s1.ekf_.Q_ = [] ∧ s1.ekf_.H_ = [] ∧ s1.ekf_.R_ = [] ∧
      s1.R_laser_ = [[0.0225, 0], [0, 0.0225]] ∧
      s1.R_radar_ = [[0.09, 0, 0], [0, 0.0009, 0], [0, 0, 0.09]] :=
  match first_call_frame idleQ freshQ ⟨7, .LASER, [3, 4]⟩ rfl rfl with
  | ⟨s1, h1, h2, h3, h4, h5, h6, h7, h8, h9, _, _⟩ =>
    ⟨rfl, rfl, s1, h1, h2, h3, h4, h5, h6, h7, h8, h9⟩

/-- C13: for a record whose raw vector has the length of its tag (2 for LASER,
3 for RADAR), `ProcessMeasurement` never takes the out-of-range branch of an
element read (it returns a result), and on the first call the result does not
change when further elements are appended to the raw vector: initialization
reads no index at or beyond that length. -/
theorem raw_reads_within_expected_length (c : Collaborators α) (s : FusionEKF α)
    (m : MeasurementPackage α)
    (hlen : m.raw_measurements_.length = m.sensor_type_.expectedLength) :
    (∃ r, FusionEKF.ProcessMeasurement c s m = some r) ∧
    (s.is_initialized_ = false →
      ∀ extra : List α,
        FusionEKF.ProcessMeasurement c s
            { m with raw_measurements_ := m.raw_measurements_ ++ extra } =
          FusionEKF.ProcessMeasurement c s m) := by
  constructor
  · cases hs : s.is_initialized_
    · obtain ⟨px, py, h⟩ := initialize_wellformed c s m hlen
      rw [processMeasurement_first c s m hs, h]
      exact ⟨_, rfl⟩
    · rw [processMeasurement_later c s m hs]
      exact ⟨_, rfl⟩
  · intro hs extra
    rw [processMeasurement_first c s _ hs, processMeasurement_first c s _ hs]
    exact initialize_ignores_tail c s m extra hlen

/-- Witness for C13: a RADAR record of length 3 is processed, and its result is
that of the same record with a fourth element; a RADAR record of length 2,
which does not match its tag, does reach the out-of-range branch. -/
theorem raw_reads_within_expected_length_witness :
    ([5, 0, 1] : List ℚ).length = SensorType.RADAR.expectedLength ∧
    (∃ r, FusionEKF.ProcessMeasurement idleQ freshQ ⟨0, .RADAR, [5, 0, 1]⟩ = some r) ∧
    FusionEKF.ProcessMeasurement idleQ freshQ ⟨0, .RADAR, [5, 0, 1, 9]⟩ =
      FusionEKF.ProcessMeasurement idleQ freshQ ⟨0, .RADAR, [5, 0, 1]⟩ ∧
    FusionEKF.ProcessMeasurement idleQ freshQ ⟨0, .RADAR, [5, 0]⟩ = none := by
  have h := raw_reads_within_expected_length idleQ freshQ ⟨0, .RADAR, [5, 0, 1]⟩ rfl
  refine ⟨rfl, h.1, h.2 rfl [9], ?_⟩
  rw [processMeasurement_first idleQ freshQ _ rfl]
  exact initialize_short_radar idleQ freshQ 0 5 0

/-- On numbers: after the first `ProcessMeasurement` call with a LASER or RADAR
record whose raw vector has the length of its tag, the state vector is
`[px, py, 0, 0]` with `|px| ≥ 0.0001` or `|py| ≥ 0.0001`, hence
`px² + py² ≥ 0.00000001 > 0`. -/
theorem first_call_position_bounded (c : Collaborators α) (s : FusionEKF α)
    (m : MeasurementPackage α) (hs : s.is_initialized_ = false)
    (hlen : m.raw_measurements_.length = m.sensor_type_.expectedLength) :
    ∃ s1 calls px py, FusionEKF.ProcessMeasurement c s m = some (s1, calls) ∧
      s1.ekf_.x_ = [px, py, 0, 0] ∧
      (|px| ≥ (0.0001 : α) ∨ |py| ≥ (0.0001 : α)) ∧
      px ^ 2 + py ^ 2 ≥ (0.00000001 : α) ∧ px ^ 2 + py ^ 2 > 0 := by
  obtain ⟨qx, qy, h⟩ := initialize_wellformed c s m hlen
  rw [processMeasurement_first c s m hs, h]
  have key : ∀ px py : α, (|px| ≥ (0.0001 : α) ∨ |py| ≥ (0.0001 : α)) →
      px ^ 2 + py ^ 2 ≥ (0.00000001 : α) := by
    intro px py hor
    have hx : 0 ≤ px ^ 2 := sq_nonneg px
    have hy : 0 ≤ py ^ 2 := sq_nonneg py
    have hsq : ∀ t : α, |t| ≥ (0.0001 : α) → t ^ 2 ≥ (0.00000001 : α) := by
      intro t ht
      have h1 : (0.0001 : α) ^ 2 ≤ |t| ^ 2 :=
        pow_le_pow_left₀ (by norm_num) ht 2
      rw [sq_abs] at h1
      have h2 : (0.0001 : α) ^ 2 = 0.00000001 := by norm_num
      rw [h2] at h1
      exact h1
    rcases hor with hpx | hpy
    · have := hsq px hpx; linarith
    · have := hsq py hpy; linarith
  have hpos : (0 : α) < 0.00000001 := by norm_num
  by_cases hg : |qx| < (0.0001 : α) ∧ |qy| < (0.0001 : α)
  · have hor : |(0.0001 : α)| ≥ (0.0001 : α) ∨ |(0.0001 : α)| ≥ (0.0001 : α) :=
      Or.inl (le_abs_self _)
    exact ⟨_, _, 0.0001, 0.0001, rfl, by simp [hg], hor, key _ _ hor,
      lt_of_lt_of_le hpos (key _ _ hor)⟩
  · have hor : |qx| ≥ (0.0001 : α) ∨ |qy| ≥ (0.0001 : α) := by
      by_contra hcon
      push_neg at hcon
      exact hg ⟨hcon.1, hcon.2⟩
    exact ⟨_, _, qx, qy, rfl, by simp [hg], hor, key _ _ hor,
      lt_of_lt_of_le hpos (key _ _ hor)⟩

theorem initialize_nan_laser (c : Collaborators α) (self : FusionEKF (Option α))
    (ts : Int) (a b : Option α) :
    FusionEKF.initialize_nan c self ⟨ts, .LASER, [a, b]⟩ =
      some ({ self with
                ekf_ := { self.ekf_ with
                  x_ := if (nanLt (nanFabs a) (some (0.0001 : α)) &&
                            nanLt (nanFabs b) (some (0.0001 : α))) = true
                        then [some 0.0001, some 0.0001, some 0, some 0]
                        else [a, b, some 0, some 0]
                  P_ := [[some 1, some 0, some 0, some 0],
                         [some 0, some 1, some 0, some 0],
                         [some 0, some 0, some 1000, some 0],
                         [some 0, some 0, some 0, some 1000]] }
                previous_timestamp_ := ts
                is_initialized_ := true }, []) := by
  cases h1 : nanLt (nanFabs a) (some (0.0001 : α)) <;>
    cases h2 : nanLt (nanFabs b) (some (0.0001 : α)) <;>
    simp [FusionEKF.initialize_nan, h1, h2]

theorem initialize_nan_radar (c : Collaborators α) (self : FusionEKF (Option α))
    (ts : Int) (rho phi rho_dot : Option α) :
    FusionEKF.initialize_nan c self ⟨ts, .RADAR, [rho, phi, rho_dot]⟩ =
      some ({ self with
                ekf_ := { self.ekf_ with
                  x_ := if (nanLt (nanFabs (nanMul rho (phi.map c.cos))) (some (0.0001 : α)) &&
                            nanLt (nanFabs (nanMul rho (phi.map c.sin))) (some (0.0001 : α)))
                              = true
                        then [some 0.0001, some 0.0001, some 0, some 0]
                        else [nanMul rho (phi.map c.cos), nanMul rho (phi.map c.sin),
                              some 0, some 0]
                  P_ := [[some 1, some 0, some 0, some 0],
                         [some 0, some 1, some 0, some 0],
                         [some 0, some 0, some 1000, some 0],
                         [some 0, some 0, some 0, some 1000]] }
                previous_timestamp_ := ts
                is_initialized_ := true }, []) := by
  cases h1 : nanLt (nanFabs (nanMul rho (phi.map c.cos))) (some (0.0001 : α)) <;>
    cases h2 : nanLt (nanFabs (nanMul rho (phi.map c.sin))) (some (0.0001 : α)) <;>
    simp [FusionEKF.initialize_nan, h1, h2]

/-- On a record whose raw values are numbers, the first-call branch over doubles
that may be NaN does what the first-call branch over numbers does. -/
theorem initialize_nan_agrees (c : Collaborators α) (s : FusionEKF α)
    (m : MeasurementPackage α)
    (hlen : m.raw_measurements_.length = m.sensor_type_.expectedLength) :
    FusionEKF.initialize_nan c (FusionEKF.toNaN s)
        ⟨m.timestamp_, m.sensor_type_, m.raw_measurements_.map some⟩ =
      (FusionEKF.initialize_ c s m).map (fun r => (FusionEKF.toNaN r.1, [])) := by
  obtain ⟨ts, tag, z⟩ := m
  cases tag
  · obtain ⟨x, y, rfl⟩ := List.length_eq_two.mp hlen
    rw [initialize_laser]
    simp only [List.map, initialize_nan_laser]
    by_cases h : |x| < (0.0001 : α) ∧ |y| < (0.0001 : α)
    · simp [nanLt, nanFabs, FusionEKF.toNaN, KalmanFilter.toNaN, h]
    · simp [nanLt, nanFabs, FusionEKF.toNaN, KalmanFilter.toNaN, h]
  · obtain ⟨rho, phi, rho_dot, rfl⟩ := List.length_eq_three.mp hlen
    rw [initialize_radar]
    simp only [List.map, initialize_nan_radar]
    by_cases h : |rho * c.cos phi| < (0.0001 : α) ∧ |rho * c.sin phi| < (0.0001 : α)
    · simp [nanLt, nanFabs, nanMul, FusionEKF.toNaN, KalmanFilter.toNaN, h]
    · simp [nanLt, nanFabs, nanMul, FusionEKF.toNaN, KalmanFilter.toNaN, h]

/-- C16 (as the code has it): after the first `ProcessMeasurement` call with a
LASER or RADAR record whose raw values are numbers (no NaN) and whose raw
vector has the length of its tag, the state vector is `[px, py, 0, 0]` with
`|px| ≥ 0.0001` or `|py| ≥ 0.0001`, hence `px² + py² ≥ 0.00000001 > 0`; on such
a record the first-call branch over doubles that may be NaN gives the same
orchestrator. -/
theorem first_call_position_bounded_on_numbers (c : Collaborators α) (s : FusionEKF α)
    (m : MeasurementPackage α) (hs : s.is_initialized_ = false)
    (hlen : m.raw_measurements_.length = m.sensor_type_.expectedLength) :
    ∃ s1 px py, FusionEKF.ProcessMeasurement c s m = some (s1, []) ∧
      FusionEKF.initialize_nan c (FusionEKF.toNaN s)
        ⟨m.timestamp_, m.sensor_type_, m.raw_measurements_.map some⟩
          = some (FusionEKF.toNaN s1, []) ∧
      s1.ekf_.x_ = [px, py, 0, 0] ∧
      (|px| ≥ (0.0001 : α) ∨ |py| ≥ (0.0001 : α)) ∧
      px ^ 2 + py ^ 2 ≥ (0.00000001 : α) ∧ px ^ 2 + py ^ 2 > 0 := by
  obtain ⟨s1, calls, px, py, h1, h2, h3, h4, h5⟩ := first_call_position_bounded c s m hs hlen
  have hcalls : calls = [] := by
    have h := h1
    rw [processMeasurement_first c s m hs] at h
    exact (initialize_frame c s s1 m calls h).2.2.2.2.2.2.1
  subst hcalls
  refine ⟨s1, px, py, h1, ?_, h2, h3, h4, h5⟩
  rw [initialize_nan_agrees c s m hlen, ← processMeasurement_first c s m hs, h1]
  rfl

/-- Witness for C16 (as the code has it): the LASER record `[0, 0]` on a freshly
constructed orchestrator is moved to `[0.0001, 0.0001]`, away from the origin. -/
theorem first_call_position_bounded_on_numbers_witness :
    freshQ.is_initialized_ = false ∧
    ([0, 0] : List ℚ).length = SensorType.LASER.expectedLength ∧
    ∃ s1 px py,
      FusionEKF.ProcessMeasurement idleQ freshQ ⟨0, .LASER, [0, 0]⟩ = some (s1, []) ∧
      FusionEKF.initialize_nan idleQ (FusionEKF.toNaN freshQ)
        ⟨0, .LASER, [some 0, some 0]⟩ = some (FusionEKF.toNaN s1, []) ∧
      s1.ekf_.x_ = [px, py, 0, 0] ∧
      (|px| ≥ (0.0001 : ℚ) ∨ |py| ≥ (0.0001 : ℚ)) ∧
      px ^ 2 + py ^ 2 ≥ (0.00000001 : ℚ) ∧ px ^ 2 + py ^ 2 > 0 :=
  ⟨rfl, rfl, first_call_position_bounded_on_numbers idleQ freshQ ⟨0, .LASER, [0, 0]⟩ rfl rfl⟩

/-- C16 as stated fails: for a LASER record whose two raw values are NaN, on a
freshly constructed orchestrator, the guard of line 93 is false, the state
vector is left `[NaN, NaN, 0, 0]`, and neither `|px| ≥ 0.0001` nor
`|py| ≥ 0.0001` holds. -/
theorem first_call_nan_record_is_not_bounded :
    (FusionEKF.toNaN freshQ).is_initialized_ = false ∧
    ∃ s1 px py,
      FusionEKF.initialize_nan idleQ (FusionEKF.toNaN freshQ) ⟨0, .LASER, [none, none]⟩
        = some (s1, []) ∧
      s1.ekf_.x_ = [px, py, some 0, some 0] ∧ px = none ∧ py = none ∧
      nanGe (nanFabs px) (some (0.0001 : ℚ)) = false ∧
      nanGe (nanFabs py) (some (0.0001 : ℚ)) = false := by
  refine ⟨rfl, ?_⟩
  rw [initialize_nan_laser]
  exact ⟨_, none, none, rfl, rfl, rfl, rfl, rfl, rfl⟩

end WellFormed


section Lifecycle

variable {α : Type} [LinearOrderedField α]

theorem track_update_count (c : Collaborators α) (s : FusionEKF α)
    (m : MeasurementPackage α) :
    ((FusionEKF.track c s m).2.map Call.kind).count CallKind.Update +
      ((FusionEKF.track c s m).2.map Call.kind).count CallKind.UpdateEKF = 1 := by
  obtain ⟨ts, tag, z⟩ := m
  by_cases h : (FusionEKF.elapsed c.rounding ts s.previous_timestamp_ : α) ≥ 0.000001
  · cases tag
    · rw [track_laser_predict c s ts z h]; simp [Call.kind]
    · rw [track_radar_predict c s ts z h]; simp [Call.kind]
  · cases tag
    · rw [track_laser_skip c s ts z h]; simp [Call.kind]
    · rw [track_radar_skip c s ts z h]; simp [Call.kind]

theorem processMeasurement_sets_initialized (c : Collaborators α) (s s1 : FusionEKF α)
    (m : MeasurementPackage α) (calls : List (Call α))
    (h : FusionEKF.ProcessMeasurement c s m = some (s1, calls)) :
    s1.is_initialized_ = true := by
  cases hs : s.is_initialized_
  · rw [processMeasurement_first c s m hs] at h
    exact (initialize_frame c s s1 m calls h).2.2.2.2.1
  · rw [processMeasurement_later c s m hs] at h
    simp only [Option.some.injEq] at h
    have hf := (track_frame c s m).2.2.2.2.1
    rw [h] at hf
    rw [hf, hs]

theorem processAll_tracking (c : Collaborators α) (ms : List (MeasurementPackage α)) :
    ∀ s : FusionEKF α, s.is_initialized_ = true →
      processAll c s ms = some (trackAll c s ms) ∧
      (trackAll c s ms).1.is_initialized_ = true ∧
      (trackAll c s ms).2.length = ms.length ∧
      ∀ log ∈ (trackAll c s ms).2,
        (log.map Call.kind).count CallKind.Update +
          (log.map Call.kind).count CallKind.UpdateEKF = 1 := by
  induction ms with
  | nil =>
    intro s hs
    exact ⟨rfl, hs, rfl, by simp [trackAll]⟩
  | cons m ms ih =>
    intro s hs
    have hnext : (FusionEKF.track c s m).1.is_initialized_ = true := by
      rw [(track_frame c s m).2.2.2.2.1, hs]
    obtain ⟨h1, h2, h3, h4⟩ := ih _ hnext
    refine ⟨?_, h2, ?_, ?_⟩
    · simp only [processAll, processMeasurement_later c s m hs, h1, trackAll]
    · simp only [trackAll, List.length_cons, h3]
    · intro log hlog
      simp only [trackAll, List.mem_cons] at hlog
      rcases hlog with rfl | hlog
      · exact track_update_count c s m
      · exact h4 log hlog

/-- C12: after any `ProcessMeasurement` call that returns, the orchestrator is
in Tracking, and every further sequence of calls runs the later-call branch
only (`processAll` coincides with `trackAll`): the orchestrator is still in
Tracking at the end, and every one of these calls makes exactly one update
call, which the initialization branch never does. -/
theorem initialization_runs_once (c : Collaborators α) (s s1 : FusionEKF α)
    (m : MeasurementPackage α) (calls : List (Call α)) (ms : List (MeasurementPackage α))
    (h : FusionEKF.ProcessMeasurement c s m = some (s1, calls)) :
    s1.is_initialized_ = true ∧
    processAll c s1 ms = some (trackAll c s1 ms) ∧
    (trackAll c s1 ms).1.is_initialized_ = true ∧
    (trackAll c s1 ms).2.length = ms.length ∧
    ∀ log ∈ (trackAll c s1 ms).2,
      (log.map Call.kind).count CallKind.Update +
        (log.map Call.kind).count CallKind.UpdateEKF = 1 := by
  have hs1 := processMeasurement_sets_initialized c s s1 m calls h
  exact ⟨hs1, processAll_tracking c ms s1 hs1⟩

/-- Witness for C12: after the first call, a LASER record `[0, 0]` and a RADAR
record `[0, 0, 0]` (which initialization would have moved to
`[0.0001, 0.0001]`) are processed by the later-call branch; the orchestrator
stays in Tracking and, with collaborators whose updates do nothing, keeps the
state vector `[3, 4, 0, 0]`. -/
theorem initialization_runs_once_witness :
    FusionEKF.ProcessMeasurement idleQ freshQ ⟨0, .LASER, [3, 4]⟩ = some (trackingQ, []) ∧
    ∃ s2 logs,
      processAll idleQ trackingQ [⟨1, .LASER, [0, 0]⟩, ⟨2, .RADAR, [0, 0, 0]⟩]
        = some (s2, logs) ∧
      s2.is_initialized_ = true ∧ logs.length = 2 ∧ s2.ekf_.x_ = [3, 4, 0, 0] := by
  have h := initialization_runs_once idleQ freshQ trackingQ ⟨0, .LASER, [3, 4]⟩ []
    [⟨1, .LASER, [0, 0]⟩, ⟨2, .RADAR, [0, 0, 0]⟩] trackingQ_first_call
  refine ⟨trackingQ_first_call, _, _, h.2.1, h.2.2.1, h.2.2.2.1, ?_⟩
  norm_num [trackAll, FusionEKF.track, FusionEKF.elapsed, FusionEKF.buildF, idleQ,
    Collaborators.idle, Rounding.exact, KalmanFilter.Predict, MatrixXd.mulVec, dot, trackingQ,
    freshQ, FusionEKF.FusionEKF, KalmanFilter.empty]

end Lifecycle


section Covariance

variable {α : Type} [LinearOrderedField α]

theorem first_call_covariance_symmetric (c : Collaborators α) (s : FusionEKF α)
    (m : MeasurementPackage α) (hs : s.is_initialized_ = false)
    (hlen : m.raw_measurements_.length = m.sensor_type_.expectedLength) :
    ∃ s1 calls, FusionEKF.ProcessMeasurement c s m = some (s1, calls) ∧
      MatrixXd.transpose s1.ekf_.P_ = s1.ekf_.P_ := by
  obtain ⟨px, py, h⟩ := initialize_wellformed c s m hlen
  rw [processMeasurement_first c s m hs, h]
  exact ⟨_, _, rfl, by simp [MatrixXd.transpose, MatrixXd.col, List.range_succ]⟩

/-- C14 (what the code does): the covariance that the constructor installs is
`[[1,0,1,0],[0,1,0,1],[0,0,1000,0],[0,0,0,1000]]`, whose entry (0,2) is 1 while
its entry (2,0) is 0, so the freshly constructed orchestrator holds a covariance
that differs from its transpose. -/
theorem fresh_covariance_not_symmetric (ekf0 : KalmanFilter α)
    (memH memHj : Nat → Nat → α) :
    (FusionEKF.FusionEKF ekf0 memH memHj).ekf_.P_ =
      [[1, 0, 1, 0], [0, 1, 0, 1], [0, 0, 1000, 0], [0, 0, 0, 1000]] ∧
    MatrixXd.transpose (FusionEKF.FusionEKF ekf0 memH memHj).ekf_.P_ =
      [[1, 0, 0, 0], [0, 1, 0, 0], [1, 0, 1000, 0], [0, 1, 0, 1000]] ∧
    MatrixXd.transpose (FusionEKF.FusionEKF ekf0 memH memHj).ekf_.P_ ≠
      (FusionEKF.FusionEKF ekf0 memH memHj).ekf_.P_ := by
  have hP : (FusionEKF.FusionEKF ekf0 memH memHj).ekf_.P_ =
      [[1, 0, 1, 0], [0, 1, 0, 1], [0, 0, 1000, 0], [0, 0, 0, 1000]] := rfl
  have hT : MatrixXd.transpose (FusionEKF.FusionEKF ekf0 memH memHj).ekf_.P_ =
      [[1, 0, 0, 0], [0, 1, 0, 0], [1, 0, 1000, 0], [0, 1, 0, 1000]] := by
    rw [hP]
    simp [MatrixXd.transpose, MatrixXd.col, List.range_succ]
  refine ⟨hP, hT, ?_⟩
  rw [hT, hP]
  simp

/-- C15 (as the code has it): for every `dt` and every rounding, the process
noise `Q` that `ProcessMeasurement` builds equals its transpose, has the form
`[[a, 0, b, 0], [0, a, 0, b], [b, 0, d, 0], [0, b, 0, d]]` and has non-negative
diagonal entries `a`, `d`.  Without rounding, its quadratic form at
`v = [v0, v1, v2, v3]` is `9·dt²·((dt·v0/2 + v2)² + (dt·v1/2 + v3)²)`, which is
non-negative, the two position/velocity blocks have determinant
`a·d − b·b = 0`, and `Q` sends the non-zero vector `[2, 0, −dt, 0]` to zero. -/
theorem process_noise_symmetric_exact_psd (r : Rounding α) (dt v0 v1 v2 v3 : α) :
    MatrixXd.transpose (FusionEKF.buildQ r dt) = FusionEKF.buildQ r dt ∧
    (∃ a b d : α,
      FusionEKF.buildQ r dt = [[a, 0, b, 0], [0, a, 0, b], [b, 0, d, 0], [0, b, 0, d]] ∧
      0 ≤ a ∧ 0 ≤ d) ∧
    MatrixXd.quadForm (FusionEKF.buildQ Rounding.exact dt) [v0, v1, v2, v3] =
      9 * dt ^ 2 * ((dt * v0 / 2 + v2) ^ 2 + (dt * v1 / 2 + v3) ^ 2) ∧
    0 ≤ MatrixXd.quadForm (FusionEKF.buildQ Rounding.exact dt) [v0, v1, v2, v3] ∧
    (∃ a b d : α,
      FusionEKF.buildQ Rounding.exact dt =
        [[a, 0, b, 0], [0, a, 0, b], [b, 0, d, 0], [0, b, 0, d]] ∧
      a * d - b * b = 0) ∧
    MatrixXd.mulVec (FusionEKF.buildQ Rounding.exact dt) [2, 0, -dt, 0] = [0, 0, 0, 0] ∧
    ([2, 0, -dt, 0] : VectorXd α) ≠ [0, 0, 0, 0] := by
  have hq : MatrixXd.quadForm (FusionEKF.buildQ Rounding.exact dt) [v0, v1, v2, v3] =
      9 * dt ^ 2 * ((dt * v0 / 2 + v2) ^ 2 + (dt * v1 / 2 + v3) ^ 2) := by
    rw [buildQ_exact]
    simp only [MatrixXd.quadForm, MatrixXd.mulVec, dot, List.map, List.zipWith, List.sum_cons,
      List.sum_nil]
    ring
  have h9 : (0 : α) ≤ r.toFloat 9.0 := r.toFloat_nonneg _ (by norm_num)
  have h2 : (0 : α) ≤ r.toFloat (dt * dt) := r.toFloat_nonneg _ (mul_self_nonneg dt)
  have h4 : (0 : α) ≤ r.toFloat (r.toFloat (r.toFloat (dt * dt) * dt) * dt) := by
    rcases le_total 0 dt with hdt | hdt
    · exact r.toFloat_nonneg _
        (mul_nonneg (r.toFloat_nonneg _ (mul_nonneg h2 hdt)) hdt)
    · exact r.toFloat_nonneg _
        (mul_nonneg_of_nonpos_of_nonpos
          (r.toFloat_nonpos _ (mul_nonpos_iff.mpr (Or.inl ⟨h2, hdt⟩))) hdt)
  refine ⟨buildQ_symmetric r dt, ⟨_, _, _, buildQ_shape r dt, ?_, ?_⟩, hq, ?_, ?_, ?_, ?_⟩
  · exact r.toFloat_nonneg _
      (mul_nonneg (r.toFloat_nonneg _ (div_nonneg h4 (by norm_num))) h9)
  · exact r.toFloat_nonneg _ (mul_nonneg h2 h9)
  · rw [hq]
    positivity
  · refine ⟨_, _, _, buildQ_exact dt, ?_⟩
    ring
  · rw [buildQ_exact]
    simp only [MatrixXd.mulVec, dot, List.map, List.zipWith, List.sum_cons, List.sum_nil]
    have e1 : 9 * dt ^ 4 / 4 * 2 + (0 * 0 + (9 * dt ^ 3 / 2 * -dt + (0 * 0 + 0))) = 0 := by
      ring
    have e2 : 0 * 2 + (9 * dt ^ 4 / 4 * 0 + (0 * -dt + (9 * dt ^ 3 / 2 * 0 + 0))) = 0 := by
      ring
    have e3 : 9 * dt ^ 3 / 2 * 2 + (0 * 0 + (9 * dt ^ 2 * -dt + (0 * 0 + 0))) = 0 := by
      ring
    have e4 : 0 * 2 + (9 * dt ^ 3 / 2 * 0 + (0 * -dt + (9 * dt ^ 2 * 0 + 0))) = 0 := by
      ring
    rw [e1, e2, e3, e4]
  · simp

/-- C15 as stated fails: with IEEE rounding, at the `float` `dt = 13421773 / 2^28`
of a 50 ms step the matrix `Q` has a negative quadratic form at
`v = [2, 0, −dt, 0]`, which is also not
`9·dt²·((dt·v0/2 + v2)² + (dt·v1/2 + v3)²) = 0`; its position/velocity block has
a non-zero (negative) determinant, and `Q·v` is not zero. -/
theorem rounded_process_noise_is_indefinite :
    (∃ s1 call rest,
      FusionEKF.ProcessMeasurement ieeeQ trackingQ ⟨50000, .LASER, [3, 4]⟩
        = some (s1, call :: rest) ∧
      call.ekf.Q_ = FusionEKF.buildQ Rounding.ieee (13421773 / 268435456)) ∧
    MatrixXd.quadForm (FusionEKF.buildQ Rounding.ieee (13421773 / 268435456))
      [2, 0, -(13421773 / 268435456), 0] < 0 ∧
    (9 * (13421773 / 268435456 : ℚ) ^ 2 *
      ((13421773 / 268435456 * 2 / 2 + -(13421773 / 268435456)) ^ 2 +
        (13421773 / 268435456 * 0 / 2 + 0) ^ 2)) = 0 ∧
    (15461883 / 1099511627776 : ℚ) * (3019899 / 134217728)
      - 9663677 / 17179869184 * (9663677 / 17179869184) < 0 ∧
    MatrixXd.mulVec (FusionEKF.buildQ Rounding.ieee (13421773 / 268435456))
      [2, 0, -(13421773 / 268435456), 0] ≠ [0, 0, 0, 0] := by
  refine ⟨?_, ?_, by norm_num, by norm_num, ?_⟩
  · obtain ⟨s1, call, rest, h1, -, h3⟩ := ieee_50ms_first_call
    exact ⟨s1, call, rest, h1, h3⟩
  · rw [buildQ_ieee_50ms]
    norm_num [MatrixXd.quadForm, MatrixXd.mulVec, dot]
  · rw [buildQ_ieee_50ms]
    norm_num [MatrixXd.mulVec, dot]

end Covariance


section Epsilon

/-- The literal `0.000001` as a `double`. -/
theorem binary64_epsilon :
    binary64 (0.000001) = 4722366482869645 / 4722366482869645213696 := by
  have hx : (0.000001 : ℚ) = 1 / 1000000 := by norm_num
  have h := roundTo_eval 53 (-1022) (1 / 1000000) (-20) 4722366482869645
    (by norm_num) (by norm_num) (by norm_num) (by norm_num) (by norm_num)
  unfold binary64
  rw [hx, h]
  norm_num

/-- No `float` lies between the `double` literal `0.000001` and the decimal
fraction `1/1000000`, bounds included: for a `float`, being at least the
decimal, exceeding the decimal and exceeding the literal are the same. -/
theorem binary32_epsilon (x : ℚ) :
    (binary32 x ≥ 0.000001 ↔ binary32 x > 0.000001) ∧
    (binary32 x ≥ 0.000001 ↔ binary32 x > binary64 0.000001) ∧
    (binary32 x ≥ 0.000001 ↔ binary32 x ≥ binary64 0.000001) := by
  have gap := binary32_gap x
  rw [binary64_epsilon]
  have ha : (8796093 : ℚ) / 2 ^ 43 < 4722366482869645 / 4722366482869645213696 := by
    norm_num
  have hl : (4722366482869645 : ℚ) / 4722366482869645213696 < 0.000001 := by norm_num
  have hb : (0.000001 : ℚ) < 8796094 / 2 ^ 43 := by norm_num
  have up : (8796093 : ℚ) / 2 ^ 43 < binary32 x → binary32 x ≥ 8796094 / 2 ^ 43 := by
    intro h
    exact not_lt.mp (fun h2 => gap ⟨h, h2⟩)
  refine ⟨⟨fun h => ?_, fun h => le_of_lt h⟩, ⟨fun h => ?_, fun h => ?_⟩,
    ⟨fun h => ?_, fun h => ?_⟩⟩
  · exact lt_of_lt_of_le hb (up (lt_of_lt_of_le (lt_trans ha hl) h))
  · exact lt_of_lt_of_le hl h
  · exact le_trans hb.le (up (lt_trans ha h))
  · exact le_trans hl.le h
  · exact le_trans hb.le (up (lt_of_lt_of_le ha h))

end Epsilon

section Guard

/-- C4: with IEEE arithmetic, in the Tracking state `ProcessMeasurement`
succeeds and invokes `Predict()`, once, if and only if `dt` exceeds the epsilon
0.000001 (`dt > 0.000001`), where `dt` is the `float` that lines 125-126
compute; for `dt` equal to or below the epsilon it is not invoked.  The same
holds with the epsilon taken as the `double` literal that the code compares
with. -/
theorem predict_iff_elapsed_exceeds_epsilon (c : Collaborators ℚ) (s : FusionEKF ℚ)
    (m : MeasurementPackage ℚ) (hc : c.rounding = Rounding.ieee)
    (hs : s.is_initialized_ = true) :
    ∃ s1 calls dt, FusionEKF.ProcessMeasurement c s m = some (s1, calls) ∧
      dt = binary32 (binary64
            (binary32 ((m.timestamp_ - s.previous_timestamp_ : Int) : ℚ) / 1000000)) ∧
      (CallKind.Predict ∈ calls.map Call.kind ↔ dt > 0.000001) ∧
      (CallKind.Predict ∉ calls.map Call.kind ↔ dt ≤ 0.000001) ∧
      (CallKind.Predict ∈ calls.map Call.kind ↔ dt > binary64 0.000001) ∧
      (calls.map Call.kind).count CallKind.Predict ≤ 1 := by
  obtain ⟨s1, calls, h1, h2, h3⟩ := predict_iff_elapsed_ge c s m hs
  rw [hc] at h2
  have hm : (1000000.0 : ℚ) = 1000000 := by norm_num
  have he := binary32_epsilon
    (binary64 (binary32 ((m.timestamp_ - s.previous_timestamp_ : Int) : ℚ) / 1000000))
  have hd : FusionEKF.elapsed Rounding.ieee m.timestamp_ s.previous_timestamp_ =
      binary32 (binary64
        (binary32 ((m.timestamp_ - s.previous_timestamp_ : Int) : ℚ) / 1000000)) := by
    simp only [FusionEKF.elapsed, hm]
    rfl
  rw [hd] at h2
  have h4 := h2.trans he.1
  exact ⟨s1, calls, _, h1, rfl, h4, by rw [h4, not_lt], h2.trans he.2.1, h3⟩

/-- Witness for C4: with IEEE arithmetic, one microsecond after the reference
timestamp `dt` is `8796093 / 2^43`, which does not exceed 0.000001, and
`Predict()` is not invoked; two microseconds after it, `dt` is `8796093 / 2^42`
and `Predict()` is invoked. -/
theorem predict_iff_elapsed_exceeds_epsilon_witness :
    ieeeQ.rounding = Rounding.ieee ∧ trackingQ.is_initialized_ = true ∧
    (∃ (s1 : FusionEKF ℚ) (calls : List (Call ℚ)) (dt : ℚ),
      FusionEKF.ProcessMeasurement ieeeQ trackingQ ⟨1, .LASER, [3, 4]⟩ = some (s1, calls) ∧
      dt = 8796093 / 8796093022208 ∧
      (CallKind.Predict ∈ calls.map Call.kind ↔ dt > 0.000001) ∧
      CallKind.Predict ∉ calls.map Call.kind) ∧
    ∃ (s1 : FusionEKF ℚ) (calls : List (Call ℚ)) (dt : ℚ),
      FusionEKF.ProcessMeasurement ieeeQ trackingQ ⟨2, .LASER, [3, 4]⟩ = some (s1, calls) ∧
      dt = 8796093 / 4398046511104 ∧
      (CallKind.Predict ∈ calls.map Call.kind ↔ dt > 0.000001) ∧
      CallKind.Predict ∈ calls.map Call.kind := by
  have hm : (1000000.0 : ℚ) = 1000000 := by norm_num
  refine ⟨rfl, rfl, ?_, ?_⟩
  · obtain ⟨s1, calls, dt, h1, hdt, h2, h3, -, -⟩ :=
      predict_iff_elapsed_exceeds_epsilon ieeeQ trackingQ ⟨1, .LASER, [3, 4]⟩ rfl rfl
    have e : dt = 8796093 / 8796093022208 := by
      rw [hdt]
      have h := elapsed_ieee_1us
      simp only [FusionEKF.elapsed, hm] at h
      exact h
    refine ⟨s1, calls, dt, h1, e, h2, ?_⟩
    rw [h3, e]
    norm_num
  · obtain ⟨s1, calls, dt, h1, hdt, h2, -, -, -⟩ :=
      predict_iff_elapsed_exceeds_epsilon ieeeQ trackingQ ⟨2, .LASER, [3, 4]⟩ rfl rfl
    have e : dt = 8796093 / 4398046511104 := by
      rw [hdt]
      have h := elapsed_ieee_2us
      simp only [FusionEKF.elapsed, hm] at h
      exact h
    refine ⟨s1, calls, dt, h1, e, h2, ?_⟩
    rw [h2, e]
    norm_num

end Guard

end CarND
